import Mathlib

/-!
Shallow embedding of the command-dispatch and state-synchronization layer of
`src/network.rs` (spotify-tui). Remote calls are modelled by an `Env` record
of deterministic responses; each handler is a pure function from the shared
`App` state to a new state plus the ordered trace of remote calls it issued.
Rust panics (`unwrap` on `None`) are modelled as `Except.error`; every other
control path returns `Except.ok`. Functions of `app.rs` and `config.rs`,
which are not part of the sources at hand, are modelled from the
specification and marked as such in their doc comments.
-/

/-- Repeat state of the player, from rspotify's `senum::RepeatState`. -/
inductive RepeatState where
  | Off
  | Context
  | Track
  deriving DecidableEq, Repr

/-- Route identifiers used by the navigation stack (subset referenced by
`network.rs`, plus the home route used as default). -/
inductive RouteId where
  | Home
  | SelectedDevice
  | TrackTable
  | AlbumTracks
  | Analysis
  | RecentlyPlayed
  | Recommendations
  deriving DecidableEq, Repr

/-- Active UI block recorded next to the route in a navigation entry. -/
inductive ActiveBlock where
  | Empty
  | SelectDevice
  | TrackTable
  | AlbumTracks
  | Analysis
  | RecentlyPlayed
  deriving DecidableEq, Repr

/-- Context tag of the track table. -/
inductive TrackTableContext where
  | SavedTracks
  | RecommendedTracks
  deriving DecidableEq, Repr

/-- Context tag of the album table. -/
inductive AlbumTableContext where
  | Simplified
  | Full
  deriving DecidableEq, Repr

/-- Block selection inside the artist view. -/
inductive ArtistBlock where
  | Empty
  | TopTracks
  deriving DecidableEq, Repr

/-- A full track object; only the fields `network.rs` reads are kept. -/
structure FullTrack where
  id : Option String
  uri : String
  deriving DecidableEq, Repr

/-- A page of results (`rspotify::model::page::Page`); only `items` is read. -/
structure Page (α : Type) where
  items : List α
  deriving DecidableEq, Repr

/-- A playlist item whose `track` field is optional, as in the remote model. -/
structure PlaylistTrack where
  track : Option FullTrack
  deriving DecidableEq, Repr

/-- A saved-track item wrapping a full track. -/
structure SavedTrack where
  track : FullTrack
  deriving DecidableEq, Repr

/-- A simplified album; only the optional `id` is read. -/
structure SimplifiedAlbum where
  id : Option String
  deriving DecidableEq, Repr

/-- A simplified track as returned for album tracks; only `id` is read. -/
structure SimplifiedTrack where
  id : Option String
  deriving DecidableEq, Repr

/-- A simplified playlist; `owner.id` is flattened to `owner_id`. -/
structure SimplifiedPlaylist where
  owner_id : String
  name : String
  deriving DecidableEq, Repr

/-- Result of a track search: a page of full tracks. -/
structure SearchTracks where
  tracks : Page FullTrack
  deriving DecidableEq, Repr

/-- Result of an artist search; artists kept as opaque names. -/
structure SearchArtists where
  artists : Page String
  deriving DecidableEq, Repr

/-- Result of an album search. -/
structure SearchAlbums where
  albums : Page SimplifiedAlbum
  deriving DecidableEq, Repr

/-- Result of a playlist search. -/
structure SearchPlaylists where
  playlists : Page SimplifiedPlaylist
  deriving DecidableEq, Repr

/-- The playback device inside a playback context; only `volume_percent` is
written by `network.rs`. -/
structure PlaybackDevice where
  volume_percent : Nat
  deriving DecidableEq, Repr

/-- Snapshot of the current playback context. -/
structure CurrentlyPlaybackContext where
  item : Option FullTrack
  shuffle_state : Bool
  repeat_state : RepeatState
  device : PlaybackDevice
  deriving DecidableEq, Repr

/-- Payload of the device-list call. -/
structure DevicePayload where
  devices : List String
  deriving DecidableEq, Repr

/-- A recommended track; only its `uri` is read. -/
structure RecTrack where
  uri : String
  deriving DecidableEq, Repr

/-- Result of the recommendations call. -/
structure Recommendations where
  tracks : List RecTrack
  deriving DecidableEq, Repr

/-- Result of the batch get-tracks call. -/
structure FullTracks where
  tracks : List FullTrack
  deriving DecidableEq, Repr

/-- A full artist; only `name` is read. -/
structure FullArtist where
  name : String
  deriving DecidableEq, Repr

/-- Top-tracks result for an artist. -/
structure TopTracks where
  tracks : List FullTrack
  deriving DecidableEq, Repr

/-- Related-artists result; artists kept as opaque names. -/
structure RelatedArtists where
  artists : List String
  deriving DecidableEq, Repr

/-- Cursor-based page of followed artists. -/
structure CursorPageArtists where
  artists : Page String
  deriving DecidableEq, Repr

/-- One play-history item of the recently-played call. -/
structure PlayHistory where
  track : FullTrack
  deriving DecidableEq, Repr

/-- Result of the recently-played call. -/
structure RecentlyPlayedResult where
  items : List PlayHistory
  deriving DecidableEq, Repr

/-- A full album object, kept opaque. -/
structure FullAlbum where
  name : String
  deriving DecidableEq, Repr

/-- Token info returned by the auth exchange; only `expires_in` is read. -/
structure TokenInfo where
  access_token : String
  expires_in : Nat
  deriving DecidableEq, Repr

/-- The rspotify client, reduced to the credential it carries. -/
structure Spotify where
  token_info : TokenInfo
  deriving DecidableEq, Repr

/-- One entry of the navigation stack: a route plus its active block. -/
structure Route where
  id : RouteId
  active_block : ActiveBlock
  deriving DecidableEq, Repr

/-- The artist view aggregate built by `get_artist`. -/
structure ArtistView where
  artist_name : String
  albums : Page SimplifiedAlbum
  related_artists : List String
  top_tracks : List FullTrack
  selected_album_index : Nat
  selected_related_artist_index : Nat
  selected_top_track_index : Nat
  artist_hovered_block : ArtistBlock
  artist_selected_block : ArtistBlock
  deriving DecidableEq, Repr

/-- The album selected from a simplified album listing. -/
structure SelectedAlbum where
  album : SimplifiedAlbum
  tracks : Page SimplifiedTrack
  selected_index : Nat
  deriving DecidableEq, Repr

/-- The album selected from a full album object. -/
structure SelectedFullAlbum where
  album : FullAlbum
  selected_index : Nat
  deriving DecidableEq, Repr

/-- The track table substructure of the shared state. -/
structure TrackTable where
  tracks : List FullTrack
  context : Option TrackTableContext
  deriving DecidableEq, Repr

/-- The four search-result fields of the shared state. -/
structure SearchResults where
  tracks : Option SearchTracks
  artists : Option SearchArtists
  albums : Option SearchAlbums
  playlists : Option SearchPlaylists
  deriving DecidableEq, Repr

/-- Modelled from the spec: a paginated collection of the library
(`ScrollableResultPages` of `app.rs`, not under `src/`): pages accumulate in
arrival order. -/
structure ScrollableResultPages (α : Type) where
  pages : List (Page α)
  deriving DecidableEq, Repr

/-- Modelled from the spec: `add_pages` appends a page's items at the end of
the tracked sequence, preserving arrival order, never deduplicating. -/
def ScrollableResultPages.add_pages {α : Type} (s : ScrollableResultPages α)
    (page : Page α) : ScrollableResultPages α :=
  { s with pages := s.pages ++ [page] }

/-- Modelled from the spec: `get_mut_results` returns the currently tracked
page or none; modelled as the most recently added page. -/
def ScrollableResultPages.get_results {α : Type} (s : ScrollableResultPages α) :
    Option (Page α) :=
  s.pages.getLast?

/-- Modelled from the spec: replace the most recently added page. -/
def ScrollableResultPages.set_last {α : Type} (s : ScrollableResultPages α)
    (page : Page α) : ScrollableResultPages α :=
  { s with pages := s.pages.dropLast ++ [page] }

/-- The library substructure with its paginated collections. -/
structure Library where
  saved_tracks : ScrollableResultPages SavedTrack
  saved_albums : ScrollableResultPages Unit
  saved_artists : ScrollableResultPages String
  made_for_you_playlists : ScrollableResultPages SimplifiedPlaylist
  deriving DecidableEq, Repr

/-- The recently-played substructure. -/
structure RecentlyPlayed where
  result : Option RecentlyPlayedResult
  deriving DecidableEq, Repr

/-- The shared application state (`App` of `app.rs`), reduced to the fields
`network.rs` reads or writes. -/
structure App where
  is_loading : Bool
  errors : List String
  user : Option String
  devices : Option DevicePayload
  selected_device_index : Option Nat
  current_playback_context : Option CurrentlyPlaybackContext
  instant_since_last_current_playback_poll : Nat
  liked_song_ids_set : Finset String
  navigation_stack : List Route
  playlist_tracks : Option (Page PlaylistTrack)
  made_for_you_tracks : Option (Page PlaylistTrack)
  track_table : TrackTable
  search_results : SearchResults
  library : Library
  song_progress_ms : Nat
  artist : Option ArtistView
  artists : List String
  playlists : Option (Page SimplifiedPlaylist)
  selected_playlist_index : Option Nat
  recently_played : RecentlyPlayed
  selected_album_simplified : Option SelectedAlbum
  selected_album_full : Option SelectedFullAlbum
  album_table_context : AlbumTableContext
  audio_analysis : Option Unit
  recommended_tracks : List FullTrack

/-- Modelled from the spec: `App.handle_error` (`app.rs` is not under `src/`):
records the failure into shared state for later display. Modelled as
appending the failure message to an error list. -/
def App.handle_error (app : App) (e : String) : App :=
  { app with errors := app.errors ++ [e] }

/-- The default route used when the navigation stack is empty. -/
def default_route : Route := ⟨RouteId.Home, ActiveBlock.Empty⟩

/-- Modelled from the spec: `App.get_current_route` (`app.rs` is not under
`src/`): the top entry of the navigation stack, or the default route. -/
def App.get_current_route (app : App) : Route :=
  (app.navigation_stack.getLast?).getD default_route

/-- Modelled from the spec: `App.push_navigation_stack` (`app.rs` is not under
`src/`): a no-op (stack unchanged) when the top entry's route already equals
the target route; otherwise appends exactly one entry. -/
def App.push_navigation_stack (app : App) (next_route_id : RouteId)
    (next_active_block : ActiveBlock) : App :=
  match app.navigation_stack.getLast? with
  | some top =>
      if top.id = next_route_id then app
      else { app with navigation_stack :=
               app.navigation_stack ++ [⟨next_route_id, next_active_block⟩] }
  | none =>
      { app with navigation_stack :=
          app.navigation_stack ++ [⟨next_route_id, next_active_block⟩] }

/-- Modelled from the spec: `App.pop_navigation_stack` (`app.rs` is not under
`src/`): removes the top entry. -/
def App.pop_navigation_stack (app : App) : App :=
  { app with navigation_stack := app.navigation_stack.dropLast }

/-- Modelled from the spec: `App.set_saved_tracks_to_table` (`app.rs` is not
under `src/`): writes the page's tracks into the track table. -/
def App.set_saved_tracks_to_table (app : App) (page : Page SavedTrack) : App :=
  { app with track_table :=
      { app.track_table with tracks := page.items.map (fun item => item.track) } }

/-- Deterministic model of the Remote Capability: one response field per
remote operation, keyed by the arguments the source passes. `now` models
`Instant::now()`, `getToken` the auth exchange of `util::get_token`. -/
structure Env where
  now : Nat
  getToken : Option TokenInfo
  currentUser : Except String String
  device : Except String DevicePayload
  currentPlayback : Except String (Option CurrentlyPlaybackContext)
  savedTracksContains : List String → Except String (List Bool)
  userPlaylistTracks : String → Nat → Nat → Except String (Page PlaylistTrack)
  searchTrack : String → Nat → Option String → Except String SearchTracks
  searchArtist : String → Nat → Option String → Except String SearchArtists
  searchAlbum : String → Nat → Option String → Except String SearchAlbums
  searchPlaylist : String → Nat → Option String → Except String SearchPlaylists
  currentUserSavedTracks : Nat → Option Nat → Except String (Page SavedTrack)
  startPlayback : Option String → Option String → Option (List String) →
    Option Nat → Except String Unit
  seekTrack : Nat → Option String → Except String Unit
  nextTrack : Option String → Except String Unit
  previousTrack : Option String → Except String Unit
  shuffle : Bool → Option String → Except String Unit
  repeatCall : RepeatState → Option String → Except String Unit
  pausePlayback : Option String → Except String Unit
  volume : Nat → Option String → Except String Unit
  artistAlbums : String → Option String → Nat → Except String (Page SimplifiedAlbum)
  artist : String → Except String FullArtist
  artistTopTracks : String → Option String → Except String TopTracks
  artistRelatedArtists : String → Except String RelatedArtists
  albumTrack : String → Nat → Except String (Page SimplifiedTrack)
  recommendations : Option (List String) → Option (List String) → Nat →
    Option String → Except String Recommendations
  tracksBatch : List String → Except String FullTracks
  track : String → Except String FullTrack
  savedTracksDelete : List String → Except String Unit
  savedTracksAdd : List String → Except String Unit
  currentUserFollowedArtists : Nat → Option String → Except String CursorPageArtists
  currentUserSavedAlbums : Nat → Option Nat → Except String (Page Unit)
  savedAlbumsDelete : List String → Except String Unit
  savedAlbumsAdd : List String → Except String Unit
  userFollowArtists : List String → Except String Unit
  userUnfollowArtists : List String → Except String Unit
  followPlaylist : String → String → Option Bool → Except String Unit
  unfollowPlaylist : String → String → Except String Unit
  audioAnalysis : String → Except String Unit
  currentUserPlaylists : Nat → Except String (Page SimplifiedPlaylist)
  recentlyPlayed : Nat → Except String RecentlyPlayedResult
  album : String → Except String FullAlbum
  setDeviceId : String → Except String Unit

/-- Trace entry: one remote call with the arguments it was issued with. -/
inductive RC where
  | getToken
  | currentUser
  | device
  | currentPlayback
  | savedTracksContains (ids : List String)
  | userPlaylistTracks (playlist_id : String) (limit offset : Nat)
  | searchTrack (term : String) (limit : Nat)
  | searchArtist (term : String) (limit : Nat)
  | searchAlbum (term : String) (limit : Nat)
  | searchPlaylist (term : String) (limit : Nat)
  | currentUserSavedTracks (limit : Nat) (offset : Option Nat)
  | startPlayback (device_id : Option String) (context_uri : Option String)
      (uris : Option (List String)) (offset : Option Nat)
  | seekTrack (position_ms : Nat) (device_id : Option String)
  | nextTrack (device_id : Option String)
  | previousTrack (device_id : Option String)
  | shuffle (state : Bool) (device_id : Option String)
  | repeatCall (state : RepeatState) (device_id : Option String)
  | pausePlayback (device_id : Option String)
  | volume (volume_percent : Nat) (device_id : Option String)
  | artistAlbums (artist_id : String)
  | artist (artist_id : String)
  | artistTopTracks (artist_id : String)
  | artistRelatedArtists (artist_id : String)
  | albumTrack (album_id : String) (limit : Nat)
  | recommendations (seed_artists seed_tracks : Option (List String))
  | tracksBatch (uris : List String)
  | track (id : String)
  | savedTracksDelete (ids : List String)
  | savedTracksAdd (ids : List String)
  | currentUserFollowedArtists (limit : Nat) (after : Option String)
  | currentUserSavedAlbums (limit : Nat) (offset : Option Nat)
  | savedAlbumsDelete (ids : List String)
  | savedAlbumsAdd (ids : List String)
  | userFollowArtists (ids : List String)
  | userUnfollowArtists (ids : List String)
  | followPlaylist (owner_id playlist_id : String) (is_public : Option Bool)
  | unfollowPlaylist (user_id playlist_id : String)
  | audioAnalysis (uri : String)
  | currentUserPlaylists (limit : Nat)
  | recentlyPlayed (limit : Nat)
  | album (album_id : String)
  deriving DecidableEq, Repr

/-- Client configuration (`config.rs`, not under `src/`): the selected output
device identifier read by the playback handlers. -/
structure ClientConfig where
  device_id : Option String
  deriving DecidableEq, Repr

/-- The command variants of `IoEvent`. -/
inductive IoEvent where
  | GetCurrentPlayback
  | RefreshAuthentication
  | GetPlaylists
  | GetDevices
  | GetSearchResults (term : String) (country : Option String)
  | SetTracksToTable (tracks : List FullTrack)
  | GetMadeForYouPlaylistTracks (playlist_id : String) (offset : Nat)
  | GetPlaylistTracks (playlist_id : String) (offset : Nat)
  | GetCurrentSavedTracks (offset : Option Nat) (should_navigate : Bool)
  | StartPlayback (context_uri : Option String) (uris : Option (List String))
      (offset : Option Nat)
  | UpdateSearchLimits (large small : Nat)
  | Seek (position_ms : Nat)
  | NextTrack
  | PreviousTrack
  | Shuffle (state : Bool)
  | Repeat (state : RepeatState)
  | PausePlayback
  | ChangeVolume (volume : Nat)
  | GetArtist (artist_id input_artist_name : String) (country : Option String)
  | GetAlbumTracks (album : SimplifiedAlbum)
  | GetRecommendationsForSeed (seed_artists seed_tracks : Option (List String))
      (first_track : Option FullTrack) (country : Option String)
  | GetCurrentUserSavedAlbums (offset : Option Nat)
  | CurrentUserSavedAlbumDelete (album_id : String)
  | CurrentUserSavedAlbumAdd (album_id : String)
  | UserUnfollowArtists (ids : List String)
  | UserFollowArtists (ids : List String)
  | UserFollowPlaylist (owner_id playlist_id : String) (is_public : Option Bool)
  | UserUnfollowPlaylist (user_id playlist_id : String)
  | MadeForYouSearchAndAdd (term : String) (country : Option String)
  | GetAudioAnalysis (uri : String)
  | GetUser
  | ToggleSaveTrack (track_id : String)
  | GetRecommendationsForTrackId (track_id : String) (country : Option String)
  | GetRecentlyPlayed
  | GetFollowedArtists (after : Option String)
  | GetAlbum (album_id : String)
  | SetDeviceIdInConfig (device_id : String)

/-- Builds a client from fresh token info; the expiry instant is set ten
seconds early, as in `get_spotify`. Nat subtraction truncates at zero, which
is where the Rust `Instant` arithmetic would panic instead. -/
def get_spotify (now : Nat) (token_info : TokenInfo) : Spotify × Nat :=
  (⟨token_info⟩, now + token_info.expires_in - 10)

/-- The network component: client, token expiry, page sizes, configuration. -/
structure Network where
  spotify : Spotify
  spotify_token_expiry : Nat
  large_search_limit : Nat
  small_search_limit : Nat
  client_config : ClientConfig

/-- Constructor `Network::new`; page sizes 20 and 4 as in the source. -/
def Network.new (spotify : Spotify) (spotify_token_expiry : Nat)
    (client_config : ClientConfig) : Network :=
  { spotify := spotify
    spotify_token_expiry := spotify_token_expiry
    large_search_limit := 20
    small_search_limit := 4
    client_config := client_config }

/-- Result of one handler: the updated shared state plus the ordered trace of
remote calls issued; `Except.error` models a Rust panic. -/
abbrev HRes := Except String (App × List RC)

/-- One step of the liked-set update loop of
`current_user_saved_tracks_contains`: insert on `true`; on `false` remove
after the containment check, as in the source. -/
def liked_step (liked : Finset String) (id : String) (is_liked : Bool) :
    Finset String :=
  if is_liked then insert id liked
  else if id ∈ liked then liked.erase id else liked

/-- The loop of `current_user_saved_tracks_contains`: iterate the ids with
their positional response; iterations past the end of the response vector
find no entry and have no effect, so the loop is the fold over the zip. -/
def apply_contains (liked : Finset String) (ids : List String)
    (is_saved_vec : List Bool) : Finset String :=
  (ids.zip is_saved_vec).foldl (fun l p => liked_step l p.1 p.2) liked

/-- Handler `Network::current_user_saved_tracks_contains`. -/
def Network.current_user_saved_tracks_contains (_net : Network) (env : Env)
    (app : App) (ids : List String) : HRes :=
  match env.savedTracksContains ids with
  | .ok is_saved_vec =>
      .ok ({ app with liked_song_ids_set :=
               apply_contains app.liked_song_ids_set ids is_saved_vec },
           [RC.savedTracksContains ids])
  | .error e => .ok (app.handle_error e, [RC.savedTracksContains ids])

/-- Handler `Network::handle_error` delegating to the shared state's sink. -/
def Network.report_error (_net : Network) (app : App) (e : String) : App :=
  app.handle_error e

/-- Handler `Network::get_user`. -/
def Network.get_user (net : Network) (env : Env) (app : App) : HRes :=
  match env.currentUser with
  | .ok user => .ok ({ app with user := some user }, [RC.currentUser])
  | .error e => .ok (net.report_error app e, [RC.currentUser])

/-- Handler `Network::get_devices`; a failed device call is silently dropped
by the `if let Ok` in the source. -/
def Network.get_devices (_net : Network) (env : Env) (app : App) : HRes :=
  match env.device with
  | .ok result =>
      let app := app.push_navigation_stack RouteId.SelectedDevice
        ActiveBlock.SelectDevice
      if result.devices ≠ [] then
        .ok ({ app with
                 devices := some result
                 selected_device_index := some 0 }, [RC.device])
      else .ok (app, [RC.device])
  | .error _ => .ok (app, [RC.device])

/-- Handler `Network::get_current_playback`; failure of the playback call is
silently dropped by the `if let Ok` in the source. -/
def Network.get_current_playback (net : Network) (env : Env) (app : App) : HRes :=
  match env.currentPlayback with
  | .ok ctx =>
      match ctx with
      | some c =>
          let inner : HRes :=
            match c.item with
            | some tr =>
                match tr.id with
                | some track_id =>
                    net.current_user_saved_tracks_contains env app [track_id]
                | none => .ok (app, [])
            | none => .ok (app, [])
          match inner with
          | .ok (app, tr) =>
              .ok ({ app with
                       current_playback_context := some c
                       instant_since_last_current_playback_poll := env.now },
                   RC.currentPlayback :: tr)
          | .error e => .error e
      | none => .ok (app, [RC.currentPlayback])
  | .error _ => .ok (app, [RC.currentPlayback])

/-- Handler `Network::set_tracks_to_table`. -/
def Network.set_tracks_to_table (net : Network) (env : Env) (app : App)
    (tracks : List FullTrack) : HRes :=
  match net.current_user_saved_tracks_contains env app
      (tracks.filterMap (fun item => item.id)) with
  | .ok (app, tr) =>
      .ok ({ app with track_table := { app.track_table with tracks := tracks } }, tr)
  | .error e => .error e

/-- Unwrapping of the optional `track` of each playlist item, as performed by
the `item.track.unwrap()` map in `set_playlist_tracks_to_table`; a missing
track is the Rust panic, modelled as `Except.error`. -/
def unwrap_playlist_tracks : List PlaylistTrack → Except String (List FullTrack)
  | [] => .ok []
  | item :: rest =>
      match item.track with
      | some t => (unwrap_playlist_tracks rest).map (fun l => t :: l)
      | none => .error "called Option unwrap on a None value"

/-- Handler `Network::set_playlist_tracks_to_table`. -/
def Network.set_playlist_tracks_to_table (net : Network) (env : Env) (app : App)
    (playlist_track_page : Page PlaylistTrack) : HRes :=
  match unwrap_playlist_tracks playlist_track_page.items with
  | .ok tracks => net.set_tracks_to_table env app tracks
  | .error e => .error e

/-- Handler `Network::get_playlist_tracks`; a failed page fetch is silently
dropped by the `if let Ok` in the source. -/
def Network.get_playlist_tracks (net : Network) (env : Env) (app : App)
    (playlist_id : String) (playlist_offset : Nat) : HRes :=
  match env.userPlaylistTracks playlist_id net.large_search_limit playlist_offset with
  | .ok playlist_tracks =>
      match net.set_playlist_tracks_to_table env app playlist_tracks with
      | .ok (app, tr) =>
          let app := { app with playlist_tracks := some playlist_tracks }
          let app :=
            if app.get_current_route.id ≠ RouteId.TrackTable then
              app.push_navigation_stack RouteId.TrackTable ActiveBlock.TrackTable
            else app
          .ok (app, RC.userPlaylistTracks playlist_id net.large_search_limit
                playlist_offset :: tr)
      | .error e => .error e
  | .error _ =>
      .ok (app, [RC.userPlaylistTracks playlist_id net.large_search_limit
            playlist_offset])

/-- Handler `Network::get_made_for_you_playlist_tracks`. -/
def Network.get_made_for_you_playlist_tracks (net : Network) (env : Env)
    (app : App) (playlist_id : String) (made_for_you_offset : Nat) : HRes :=
  match env.userPlaylistTracks playlist_id net.large_search_limit
      made_for_you_offset with
  | .ok made_for_you_tracks =>
      match net.set_playlist_tracks_to_table env app made_for_you_tracks with
      | .ok (app, tr) =>
          let app := { app with made_for_you_tracks := some made_for_you_tracks }
          let app :=
            if app.get_current_route.id ≠ RouteId.TrackTable then
              app.push_navigation_stack RouteId.TrackTable ActiveBlock.TrackTable
            else app
          .ok (app, RC.userPlaylistTracks playlist_id net.large_search_limit
                made_for_you_offset :: tr)
      | .error e => .error e
  | .error _ =>
      .ok (app, [RC.userPlaylistTracks playlist_id net.large_search_limit
            made_for_you_offset])

/-- Combination of four results as produced by `try_join!`: all four futures
are started; the first failure (in field order, standing for whichever fails
first) becomes the single error. -/
def try_join4 {α β γ δ : Type} (a : Except String α) (b : Except String β)
    (c : Except String γ) (d : Except String δ) :
    Except String (α × β × γ × δ) :=
  match a, b, c, d with
  | .ok a, .ok b, .ok c, .ok d => .ok (a, b, c, d)
  | .error e, _, _, _ => .error e
  | _, .error e, _, _ => .error e
  | _, _, .error e, _ => .error e
  | _, _, _, .error e => .error e

/-- Combination of three results as produced by `try_join!` in `get_artist`. -/
def try_join3 {α β γ : Type} (a : Except String α) (b : Except String β)
    (c : Except String γ) : Except String (α × β × γ) :=
  match a, b, c with
  | .ok a, .ok b, .ok c => .ok (a, b, c)
  | .error e, _, _ => .error e
  | _, .error e, _ => .error e
  | _, _, .error e => .error e

/-- Handler `Network::get_search_results`: the four searches are issued
concurrently and jointly awaited. -/
def Network.get_search_results (net : Network) (env : Env) (app : App)
    (search_term : String) (country : Option String) : HRes :=
  let search_track := env.searchTrack search_term net.small_search_limit country
  let search_artist := env.searchArtist search_term net.small_search_limit country
  let search_album := env.searchAlbum search_term net.small_search_limit country
  let search_playlist := env.searchPlaylist search_term net.small_search_limit country
  let calls := [RC.searchTrack search_term net.small_search_limit,
                RC.searchArtist search_term net.small_search_limit,
                RC.searchAlbum search_term net.small_search_limit,
                RC.searchPlaylist search_term net.small_search_limit]
  match try_join4 search_track search_artist search_album search_playlist with
  | .ok (track_results, artist_results, album_results, playlist_results) =>
      match net.set_tracks_to_table env app track_results.tracks.items with
      | .ok (app, tr) =>
          .ok ({ app with search_results :=
                   { tracks := some track_results
                     artists := some artist_results
                     albums := some album_results
                     playlists := some playlist_results } }, calls ++ tr)
      | .error e => .error e
  | .error e => .ok (app.handle_error e, calls)

/-- Handler `Network::get_current_user_saved_tracks`. -/
def Network.get_current_user_saved_tracks (net : Network) (env : Env) (app : App)
    (offset : Option Nat) (should_navigate : Bool) : HRes :=
  match env.currentUserSavedTracks net.large_search_limit offset with
  | .ok saved_tracks =>
      let app := app.set_saved_tracks_to_table saved_tracks
      let app := { app with library :=
        { app.library with saved_tracks :=
            app.library.saved_tracks.add_pages saved_tracks } }
      let app := { app with track_table :=
        { app.track_table with context := some TrackTableContext.SavedTracks } }
      let app :=
        if should_navigate then
          app.push_navigation_stack RouteId.TrackTable ActiveBlock.TrackTable
        else app
      .ok (app, [RC.currentUserSavedTracks net.large_search_limit offset])
  | .error e =>
      .ok (app.handle_error e,
           [RC.currentUserSavedTracks net.large_search_limit offset])

/-- Handler `Network::start_playback`: context URI takes precedence over the
URI list; without a selected device the result is an error produced before
any remote call. -/
def Network.start_playback (net : Network) (env : Env) (app : App)
    (context_uri : Option String) (uris : Option (List String))
    (offset : Option Nat) : HRes :=
  let resolved : Option (List String) × Option String :=
    if context_uri.isSome then (none, context_uri)
    else if uris.isSome then (uris, none)
    else (none, none)
  let uris := resolved.1
  let context_uri := resolved.2
  let result : List RC × Except String Unit :=
    match net.client_config.device_id with
    | some device_id =>
        ([RC.startPlayback (some device_id) context_uri uris offset],
         env.startPlayback (some device_id) context_uri uris offset)
    | none => ([], .error "No device_id selected")
  match result.2 with
  | .ok _ =>
      match net.get_current_playback env app with
      | .ok (app, tr) =>
          .ok ({ app with song_progress_ms := 0 }, result.1 ++ tr)
      | .error e => .error e
  | .error e => .ok (app.handle_error e, result.1)

/-- Handler `Network::seek`: with no selected device the whole body is
skipped by the `if let Some(device_id)` in the source. -/
def Network.seek (net : Network) (env : Env) (app : App)
    (position_ms : Nat) : HRes :=
  match net.client_config.device_id with
  | some device_id =>
      match env.seekTrack position_ms (some device_id) with
      | .ok _ =>
          match net.get_current_playback env app with
          | .ok (app, tr) =>
              .ok (app, RC.seekTrack position_ms (some device_id) :: tr)
          | .error e => .error e
      | .error e =>
          .ok (app.handle_error e, [RC.seekTrack position_ms (some device_id)])
  | none => .ok (app, [])

/-- Handler `Network::next_track`: the optional device id is forwarded to the
remote call unchecked. -/
def Network.next_track (net : Network) (env : Env) (app : App) : HRes :=
  match env.nextTrack net.client_config.device_id with
  | .ok _ =>
      match net.get_current_playback env app with
      | .ok (app, tr) => .ok (app, RC.nextTrack net.client_config.device_id :: tr)
      | .error e => .error e
  | .error e =>
      .ok (app.handle_error e, [RC.nextTrack net.client_config.device_id])

/-- Handler `Network::previous_track`. -/
def Network.previous_track (net : Network) (env : Env) (app : App) : HRes :=
  match env.previousTrack net.client_config.device_id with
  | .ok _ =>
      match net.get_current_playback env app with
      | .ok (app, tr) =>
          .ok (app, RC.previousTrack net.client_config.device_id :: tr)
      | .error e => .error e
  | .error e =>
      .ok (app.handle_error e, [RC.previousTrack net.client_config.device_id])

/-- Handler `Network::shuffle`: the remote call is issued with the negated
current state, and on success the snapshot is eagerly patched to that negated
value. -/
def Network.shuffle (net : Network) (env : Env) (app : App)
    (shuffle_state : Bool) : HRes :=
  match env.shuffle (!shuffle_state) net.client_config.device_id with
  | .ok _ =>
      let app :=
        match app.current_playback_context with
        | some current_playback_context =>
            let patched := { current_playback_context with
                               shuffle_state := !shuffle_state }
            { app with current_playback_context := some patched }
        | none => app
      .ok (app, [RC.shuffle (!shuffle_state) net.client_config.device_id])
  | .error e =>
      .ok (app.handle_error e,
           [RC.shuffle (!shuffle_state) net.client_config.device_id])

/-- The repeat-state rotation computed at the top of `Network::repeat`. -/
def next_repeat_state : RepeatState → RepeatState
  | RepeatState.Off => RepeatState.Context
  | RepeatState.Context => RepeatState.Track
  | RepeatState.Track => RepeatState.Off

/-- Handler `Network::repeat` (named `repeat_playback` here because `repeat`
is a Lean keyword). -/
def Network.repeat_playback (net : Network) (env : Env) (app : App)
    (repeat_state : RepeatState) : HRes :=
  let next := next_repeat_state repeat_state
  match env.repeatCall next net.client_config.device_id with
  | .ok _ =>
      let app :=
        match app.current_playback_context with
        | some current_playback_context =>
            let patched := { current_playback_context with repeat_state := next }
            { app with current_playback_context := some patched }
        | none => app
      .ok (app, [RC.repeatCall next net.client_config.device_id])
  | .error e =>
      .ok (app.handle_error e, [RC.repeatCall next net.client_config.device_id])

/-- Handler `Network::pause_playback`. -/
def Network.pause_playback (net : Network) (env : Env) (app : App) : HRes :=
  match env.pausePlayback net.client_config.device_id with
  | .ok _ =>
      match net.get_current_playback env app with
      | .ok (app, tr) =>
          .ok (app, RC.pausePlayback net.client_config.device_id :: tr)
      | .error e => .error e
  | .error e =>
      .ok (app.handle_error e, [RC.pausePlayback net.client_config.device_id])

/-- Handler `Network::change_volume`. -/
def Network.change_volume (net : Network) (env : Env) (app : App)
    (volume_percent : Nat) : HRes :=
  match env.volume volume_percent net.client_config.device_id with
  | .ok _ =>
      let app :=
        match app.current_playback_context with
        | some current_playback_context =>
            let patched_device := { current_playback_context.device with
                                      volume_percent := volume_percent }
            let patched := { current_playback_context with device := patched_device }
            { app with current_playback_context := some patched }
        | none => app
      .ok (app, [RC.volume volume_percent net.client_config.device_id])
  | .error e =>
      .ok (app.handle_error e,
           [RC.volume volume_percent net.client_config.device_id])

/-- Handler `Network::get_artist`: the name fetch (if needed) is awaited
first, then albums, top tracks and related artists are jointly awaited; a
joint failure is silently dropped by the `if let Ok` in the source. -/
def Network.get_artist (net : Network) (env : Env) (app : App)
    (artist_id : String) (input_artist_name : String)
    (country : Option String) : HRes :=
  let albums := env.artistAlbums artist_id country net.large_search_limit
  let name_fetch : String × List RC :=
    if input_artist_name = "" then
      match env.artist artist_id with
      | .ok full_artist => (full_artist.name, [RC.artist artist_id])
      | .error _ => ("", [RC.artist artist_id])
    else (input_artist_name, [])
  let artist_name := name_fetch.1
  let top_tracks := env.artistTopTracks artist_id country
  let related_artist := env.artistRelatedArtists artist_id
  let calls := name_fetch.2 ++ [RC.artistAlbums artist_id,
    RC.artistTopTracks artist_id, RC.artistRelatedArtists artist_id]
  match try_join3 albums top_tracks related_artist with
  | .ok (albums, top_tracks, related_artist) =>
      .ok ({ app with artist := some (
               { artist_name := artist_name
                 albums := albums
                 related_artists := related_artist.artists
                 top_tracks := top_tracks.tracks
                 selected_album_index := 0
                 selected_related_artist_index := 0
                 selected_top_track_index := 0
                 artist_hovered_block := ArtistBlock.TopTracks
                 artist_selected_block := ArtistBlock.Empty }) }, calls)
  | .error _ => .ok (app, calls)

/-- Handler `Network::get_album_tracks`. -/
def Network.get_album_tracks (net : Network) (env : Env) (app : App)
    (album : SimplifiedAlbum) : HRes :=
  match album.id with
  | some album_id =>
      match env.albumTrack album_id net.large_search_limit with
      | .ok tracks =>
          let track_ids := tracks.items.filterMap (fun item => item.id)
          match net.current_user_saved_tracks_contains env app track_ids with
          | .ok (app, tr) =>
              let app := { app with selected_album_simplified := some (
                { album := album
                  tracks := tracks
                  selected_index := 0 }) }
              let app := { app with album_table_context := AlbumTableContext.Simplified }
              let app := app.push_navigation_stack RouteId.AlbumTracks
                ActiveBlock.AlbumTracks
              .ok (app, RC.albumTrack album_id net.large_search_limit :: tr)
          | .error e => .error e
      | .error e =>
          .ok (app.handle_error e, [RC.albumTrack album_id net.large_search_limit])
  | none => .ok (app, [])

/-- Helper `Network::extract_recommended_tracks`: resolve the recommended
URIs into full tracks; a failed batch fetch yields `none` (silently dropped
by the source). -/
def Network.extract_recommended_tracks (_net : Network) (env : Env)
    (recommendations : Recommendations) : Option (List FullTrack) × List RC :=
  let tracks := recommendations.tracks.map (fun item => item.uri)
  match env.tracksBatch tracks with
  | .ok result => (some result.tracks, [RC.tracksBatch tracks])
  | .error _ => (none, [RC.tracksBatch tracks])

/-- Handler `Network::get_recommendations_for_seed`: fetch recommendations,
resolve their tracks, optionally prepend the supplied first track, write the
table and chain into `start_playback` with the URI list at offset zero. -/
def Network.get_recommendations_for_seed (net : Network) (env : Env) (app : App)
    (seed_artists : Option (List String)) (seed_tracks : Option (List String))
    (first_track : Option FullTrack) (country : Option String) : HRes :=
  match env.recommendations seed_artists seed_tracks net.large_search_limit country with
  | .ok result =>
      let extracted := net.extract_recommended_tracks env result
      let calls := RC.recommendations seed_artists seed_tracks :: extracted.2
      match extracted.1 with
      | some recommended_tracks =>
          let recommended_tracks :=
            match first_track with
            | some track => track :: recommended_tracks
            | none => recommended_tracks
          let track_ids := recommended_tracks.map (fun x => x.uri)
          match net.set_tracks_to_table env app recommended_tracks with
          | .ok (app, tr1) =>
              match net.start_playback env app none (some track_ids) (some 0) with
              | .ok (app, tr2) =>
                  let app := { app with recommended_tracks := recommended_tracks }
                  let app := { app with track_table :=
                    { app.track_table with
                        context := some TrackTableContext.RecommendedTracks } }
                  let app :=
                    if app.get_current_route.id ≠ RouteId.Recommendations then
                      app.push_navigation_stack RouteId.Recommendations
                        ActiveBlock.TrackTable
                    else app
                  .ok (app, calls ++ tr1 ++ tr2)
              | .error e => .error e
          | .error e => .error e
      | none => .ok (app, calls)
  | .error e =>
      .ok (app.handle_error e, [RC.recommendations seed_artists seed_tracks])

/-- Handler `Network::get_recommendations_for_track_id`: a failed track fetch
is silently dropped (`.ok()` plus `if let Some`). -/
def Network.get_recommendations_for_track_id (net : Network) (env : Env)
    (app : App) (id : String) (country : Option String) : HRes :=
  match env.track id with
  | .ok track =>
      let track_id_list : Option (List String) :=
        match track.id with
        | some id => some [id]
        | none => none
      match net.get_recommendations_for_seed env app none track_id_list
          (some track) country with
      | .ok (app, tr) => .ok (app, RC.track id :: tr)
      | .error e => .error e
  | .error _ => .ok (app, [RC.track id])

/-- Handler `Network::toggle_save_track`: check membership of the single id,
then delete or add, updating the liked set locally. -/
def Network.toggle_save_track (_net : Network) (env : Env) (app : App)
    (track_id : String) : HRes :=
  match env.savedTracksContains [track_id] with
  | .ok saved =>
      if saved.head? = some true then
        match env.savedTracksDelete [track_id] with
        | .ok _ =>
            .ok ({ app with liked_song_ids_set :=
                     app.liked_song_ids_set.erase track_id },
                 [RC.savedTracksContains [track_id],
                  RC.savedTracksDelete [track_id]])
        | .error e =>
            .ok (app.handle_error e,
                 [RC.savedTracksContains [track_id],
                  RC.savedTracksDelete [track_id]])
      else
        match env.savedTracksAdd [track_id] with
        | .ok _ =>
            .ok ({ app with liked_song_ids_set :=
                     (insert track_id app.liked_song_ids_set) },
                 [RC.savedTracksContains [track_id],
                  RC.savedTracksAdd [track_id]])
        | .error e =>
            .ok (app.handle_error e,
                 [RC.savedTracksContains [track_id],
                  RC.savedTracksAdd [track_id]])
  | .error e =>
      .ok (app.handle_error e, [RC.savedTracksContains [track_id]])

/-- Handler `Network::get_followed_artists`. -/
def Network.get_followed_artists (net : Network) (env : Env) (app : App)
    (after : Option String) : HRes :=
  match env.currentUserFollowedArtists net.large_search_limit after with
  | .ok saved_artists =>
      let app := { app with artists := saved_artists.artists.items }
      let app := { app with library :=
        { app.library with saved_artists :=
            app.library.saved_artists.add_pages saved_artists.artists } }
      .ok (app, [RC.currentUserFollowedArtists net.large_search_limit after])
  | .error e =>
      .ok (app.handle_error e,
           [RC.currentUserFollowedArtists net.large_search_limit after])

/-- Handler `Network::get_current_user_saved_albums`: an empty page is not
recorded, so as not to show a blank page. -/
def Network.get_current_user_saved_albums (net : Network) (env : Env)
    (app : App) (offset : Option Nat) : HRes :=
  match env.currentUserSavedAlbums net.large_search_limit offset with
  | .ok saved_albums =>
      if saved_albums.items ≠ [] then
        .ok ({ app with library :=
                 { app.library with saved_albums :=
                     app.library.saved_albums.add_pages saved_albums } },
             [RC.currentUserSavedAlbums net.large_search_limit offset])
      else
        .ok (app, [RC.currentUserSavedAlbums net.large_search_limit offset])
  | .error e =>
      .ok (app.handle_error e,
           [RC.currentUserSavedAlbums net.large_search_limit offset])

/-- Handler `Network::current_user_saved_album_delete`: re-fetches the saved
albums after a successful delete. -/
def Network.current_user_saved_album_delete (net : Network) (env : Env)
    (app : App) (album_id : String) : HRes :=
  match env.savedAlbumsDelete [album_id] with
  | .ok _ =>
      match net.get_current_user_saved_albums env app none with
      | .ok (app, tr) => .ok (app, RC.savedAlbumsDelete [album_id] :: tr)
      | .error e => .error e
  | .error e =>
      .ok (app.handle_error e, [RC.savedAlbumsDelete [album_id]])

/-- Handler `Network::current_user_saved_album_add`: only a failure has an
effect. -/
def Network.current_user_saved_album_add (_net : Network) (env : Env)
    (app : App) (artist_id : String) : HRes :=
  match env.savedAlbumsAdd [artist_id] with
  | .ok _ => .ok (app, [RC.savedAlbumsAdd [artist_id]])
  | .error e => .ok (app.handle_error e, [RC.savedAlbumsAdd [artist_id]])

/-- Handler `Network::user_unfollow_artists`: re-fetches followed artists
after a successful unfollow. -/
def Network.user_unfollow_artists (net : Network) (env : Env) (app : App)
    (artist_ids : List String) : HRes :=
  match env.userUnfollowArtists artist_ids with
  | .ok _ =>
      match net.get_followed_artists env app none with
      | .ok (app, tr) => .ok (app, RC.userUnfollowArtists artist_ids :: tr)
      | .error e => .error e
  | .error e => .ok (app.handle_error e, [RC.userUnfollowArtists artist_ids])

/-- Handler `Network::user_follow_artists`. -/
def Network.user_follow_artists (net : Network) (env : Env) (app : App)
    (artist_ids : List String) : HRes :=
  match env.userFollowArtists artist_ids with
  | .ok _ =>
      match net.get_followed_artists env app none with
      | .ok (app, tr) => .ok (app, RC.userFollowArtists artist_ids :: tr)
      | .error e => .error e
  | .error e => .ok (app.handle_error e, [RC.userFollowArtists artist_ids])

/-- Handler `Network::get_current_user_playlists`. -/
def Network.get_current_user_playlists (net : Network) (env : Env)
    (app : App) : HRes :=
  match env.currentUserPlaylists net.large_search_limit with
  | .ok p =>
      .ok ({ app with
               playlists := some p
               selected_playlist_index := some 0 },
           [RC.currentUserPlaylists net.large_search_limit])
  | .error e =>
      .ok (app.handle_error e, [RC.currentUserPlaylists net.large_search_limit])

/-- Handler `Network::user_follow_playlist`: re-fetches the user's playlists
after a successful follow. -/
def Network.user_follow_playlist (net : Network) (env : Env) (app : App)
    (playlist_owner_id : String) (playlist_id : String)
    (is_public : Option Bool) : HRes :=
  match env.followPlaylist playlist_owner_id playlist_id is_public with
  | .ok _ =>
      match net.get_current_user_playlists env app with
      | .ok (app, tr) =>
          .ok (app, RC.followPlaylist playlist_owner_id playlist_id is_public :: tr)
      | .error e => .error e
  | .error e =>
      .ok (app.handle_error e,
           [RC.followPlaylist playlist_owner_id playlist_id is_public])

/-- Handler `Network::user_unfollow_playlist`. -/
def Network.user_unfollow_playlist (net : Network) (env : Env) (app : App)
    (user_id : String) (playlist_id : String) : HRes :=
  match env.unfollowPlaylist user_id playlist_id with
  | .ok _ =>
      match net.get_current_user_playlists env app with
      | .ok (app, tr) =>
          .ok (app, RC.unfollowPlaylist user_id playlist_id :: tr)
      | .error e => .error e
  | .error e =>
      .ok (app.handle_error e, [RC.unfollowPlaylist user_id playlist_id])

/-- Handler `Network::made_for_you_search_and_add`: keep only playlists owned
by the spotify account whose name equals the search string; append them to
the current made-for-you page when one exists, otherwise add a first page.
The `unwrap` on `get_mut_results` is guarded by the non-emptiness check. -/
def Network.made_for_you_search_and_add (net : Network) (env : Env) (app : App)
    (search_string : String) (country : Option String) : HRes :=
  match env.searchPlaylist search_string net.large_search_limit country with
  | .ok search_playlists =>
      let filtered_playlists := search_playlists.playlists.items.filter
        (fun playlist =>
          playlist.owner_id == "spotify" && playlist.name == search_string)
      if app.library.made_for_you_playlists.pages ≠ [] then
        match app.library.made_for_you_playlists.get_results with
        | some page =>
            let grown := { page with items := page.items ++ filtered_playlists }
            let lib := { app.library with made_for_you_playlists :=
              app.library.made_for_you_playlists.set_last grown }
            .ok ({ app with library := lib },
                 [RC.searchPlaylist search_string net.large_search_limit])
        | none => .error "called Option unwrap on a None value"
      else
        let first_page := { search_playlists.playlists with
                              items := filtered_playlists }
        let lib := { app.library with made_for_you_playlists :=
          app.library.made_for_you_playlists.add_pages first_page }
        .ok ({ app with library := lib },
             [RC.searchPlaylist search_string net.large_search_limit])
  | .error e =>
      .ok (app.handle_error e,
           [RC.searchPlaylist search_string net.large_search_limit])

/-- Handler `Network::get_audio_analysis`. -/
def Network.get_audio_analysis (_net : Network) (env : Env) (app : App)
    (uri : String) : HRes :=
  match env.audioAnalysis uri with
  | .ok result =>
      let app := { app with audio_analysis := some result }
      let app := app.push_navigation_stack RouteId.Analysis ActiveBlock.Analysis
      .ok (app, [RC.audioAnalysis uri])
  | .error e => .ok (app.handle_error e, [RC.audioAnalysis uri])

/-- Handler `Network::get_recently_played`. -/
def Network.get_recently_played (net : Network) (env : Env) (app : App) : HRes :=
  match env.recentlyPlayed net.large_search_limit with
  | .ok result =>
      let track_ids := result.items.filterMap (fun item => item.track.id)
      match net.current_user_saved_tracks_contains env app track_ids with
      | .ok (app, tr) =>
          let app := { app with recently_played := { result := some result } }
          let app := app.push_navigation_stack RouteId.RecentlyPlayed
            ActiveBlock.RecentlyPlayed
          .ok (app, RC.recentlyPlayed net.large_search_limit :: tr)
      | .error e => .error e
  | .error e =>
      .ok (app.handle_error e, [RC.recentlyPlayed net.large_search_limit])

/-- Handler `Network::get_album`. -/
def Network.get_album (_net : Network) (env : Env) (app : App)
    (album_id : String) : HRes :=
  match env.album album_id with
  | .ok album =>
      let selected_album : SelectedFullAlbum :=
        { album := album, selected_index := 0 }
      let app := { app with selected_album_full := some selected_album }
      let app := { app with album_table_context := AlbumTableContext.Full }
      let app := app.push_navigation_stack RouteId.AlbumTracks
        ActiveBlock.AlbumTracks
      .ok (app, [RC.album album_id])
  | .error e => .ok (app.handle_error e, [RC.album album_id])

/-- Handler `Network::set_device_id_in_config`: persist the device id; on
success the selection route is popped. Returns the updated network since the
configuration lives on it. -/
def Network.set_device_id_in_config (net : Network) (env : Env) (app : App)
    (device_id : String) : Except String (Network × App × List RC) :=
  match env.setDeviceId device_id with
  | .ok _ =>
      let net := { net with client_config := { device_id := some device_id } }
      .ok (net, app.pop_navigation_stack, [])
  | .error e => .ok (net, app.handle_error e, [])

/-- The body of the `match io_event` in `Network::handle_network_event`: run
the fixed handler of the command. `RefreshAuthentication` and
`UpdateSearchLimits` mutate the network component itself; all other arms
leave it unchanged. -/
def Network.dispatch_body (net : Network) (env : Env) (app : App)
    (io_event : IoEvent) : Except String (Network × App × List RC) :=
  match io_event with
  | IoEvent.RefreshAuthentication =>
      match env.getToken with
      | some new_token_info =>
          let fresh := get_spotify env.now new_token_info
          .ok ({ net with
                   spotify := fresh.1
                   spotify_token_expiry := fresh.2 }, app, [RC.getToken])
      | none => .ok (net, app, [RC.getToken])
  | IoEvent.GetPlaylists =>
      (net.get_current_user_playlists env app).map (fun r => (net, r))
  | IoEvent.GetUser => (net.get_user env app).map (fun r => (net, r))
  | IoEvent.GetDevices => (net.get_devices env app).map (fun r => (net, r))
  | IoEvent.GetCurrentPlayback =>
      (net.get_current_playback env app).map (fun r => (net, r))
  | IoEvent.SetTracksToTable full_tracks =>
      (net.set_tracks_to_table env app full_tracks).map (fun r => (net, r))
  | IoEvent.GetSearchResults search_term country =>
      (net.get_search_results env app search_term country).map (fun r => (net, r))
  | IoEvent.GetMadeForYouPlaylistTracks playlist_id made_for_you_offset =>
      (net.get_made_for_you_playlist_tracks env app playlist_id
        made_for_you_offset).map (fun r => (net, r))
  | IoEvent.GetPlaylistTracks playlist_id playlist_offset =>
      (net.get_playlist_tracks env app playlist_id playlist_offset).map
        (fun r => (net, r))
  | IoEvent.GetCurrentSavedTracks offset should_navigate =>
      (net.get_current_user_saved_tracks env app offset should_navigate).map
        (fun r => (net, r))
  | IoEvent.StartPlayback context_uri uris offset =>
      (net.start_playback env app context_uri uris offset).map (fun r => (net, r))
  | IoEvent.UpdateSearchLimits large_search_limit small_search_limit =>
      .ok ({ net with
               large_search_limit := large_search_limit
               small_search_limit := small_search_limit }, app, [])
  | IoEvent.Seek position_ms =>
      (net.seek env app position_ms).map (fun r => (net, r))
  | IoEvent.NextTrack => (net.next_track env app).map (fun r => (net, r))
  | IoEvent.PreviousTrack => (net.previous_track env app).map (fun r => (net, r))
  | IoEvent.Repeat repeat_state =>
      (net.repeat_playback env app repeat_state).map (fun r => (net, r))
  | IoEvent.PausePlayback => (net.pause_playback env app).map (fun r => (net, r))
  | IoEvent.ChangeVolume volume =>
      (net.change_volume env app volume).map (fun r => (net, r))
  | IoEvent.GetArtist artist_id input_artist_name country =>
      (net.get_artist env app artist_id input_artist_name country).map
        (fun r => (net, r))
  | IoEvent.GetAlbumTracks album =>
      (net.get_album_tracks env app album).map (fun r => (net, r))
  | IoEvent.GetRecommendationsForSeed seed_artists seed_tracks first_track country =>
      (net.get_recommendations_for_seed env app seed_artists seed_tracks
        first_track country).map (fun r => (net, r))
  | IoEvent.GetCurrentUserSavedAlbums offset =>
      (net.get_current_user_saved_albums env app offset).map (fun r => (net, r))
  | IoEvent.CurrentUserSavedAlbumDelete album_id =>
      (net.current_user_saved_album_delete env app album_id).map (fun r => (net, r))
  | IoEvent.CurrentUserSavedAlbumAdd album_id =>
      (net.current_user_saved_album_add env app album_id).map (fun r => (net, r))
  | IoEvent.UserUnfollowArtists artist_ids =>
      (net.user_unfollow_artists env app artist_ids).map (fun r => (net, r))
  | IoEvent.UserFollowArtists artist_ids =>
      (net.user_follow_artists env app artist_ids).map (fun r => (net, r))
  | IoEvent.UserFollowPlaylist playlist_owner_id playlist_id is_public =>
      (net.user_follow_playlist env app playlist_owner_id playlist_id
        is_public).map (fun r => (net, r))
  | IoEvent.UserUnfollowPlaylist user_id playlist_id =>
      (net.user_unfollow_playlist env app user_id playlist_id).map
        (fun r => (net, r))
  | IoEvent.MadeForYouSearchAndAdd search_term country =>
      (net.made_for_you_search_and_add env app search_term country).map
        (fun r => (net, r))
  | IoEvent.GetAudioAnalysis uri =>
      (net.get_audio_analysis env app uri).map (fun r => (net, r))
  | IoEvent.ToggleSaveTrack track_id =>
      (net.toggle_save_track env app track_id).map (fun r => (net, r))
  | IoEvent.GetRecommendationsForTrackId track_id country =>
      (net.get_recommendations_for_track_id env app track_id country).map
        (fun r => (net, r))
  | IoEvent.GetRecentlyPlayed =>
      (net.get_recently_played env app).map (fun r => (net, r))
  | IoEvent.GetFollowedArtists after =>
      (net.get_followed_artists env app after).map (fun r => (net, r))
  | IoEvent.GetAlbum album_id =>
      (net.get_album env app album_id).map (fun r => (net, r))
  | IoEvent.SetDeviceIdInConfig device_id =>
      net.set_device_id_in_config env app device_id
  | IoEvent.Shuffle shuffle_state =>
      (net.shuffle env app shuffle_state).map (fun r => (net, r))

/-- `Network::handle_network_event`: dispatch the command to its handler,
then acquire the lock one final time and clear the loading flag. -/
def Network.handle_network_event (net : Network) (env : Env) (app : App)
    (io_event : IoEvent) : Except String (Network × App × List RC) :=
  (net.dispatch_body env app io_event).map
    (fun r => (r.1, { r.2.1 with is_loading := false }, r.2.2))

/-- A concrete initial shared state: empty and default substructures, with
the loading flag raised by the caller before dispatch. -/
def app0 : App :=
  { is_loading := true
    errors := []
    user := none
    devices := none
    selected_device_index := none
    current_playback_context := none
    instant_since_last_current_playback_poll := 0
    liked_song_ids_set := ∅
    navigation_stack := [default_route]
    playlist_tracks := none
    made_for_you_tracks := none
    track_table := { tracks := [], context := none }
    search_results := { tracks := none, artists := none, albums := none,
                        playlists := none }
    library := { saved_tracks := ⟨[]⟩, saved_albums := ⟨[]⟩,
                 saved_artists := ⟨[]⟩, made_for_you_playlists := ⟨[]⟩ }
    song_progress_ms := 500
    artist := none
    artists := []
    playlists := none
    selected_playlist_index := none
    recently_played := { result := none }
    selected_album_simplified := none
    selected_album_full := none
    album_table_context := AlbumTableContext.Full
    audio_analysis := none
    recommended_tracks := [] }

/-- A concrete environment in which every remote call fails. -/
def env0 : Env :=
  { now := 0
    getToken := none
    currentUser := .error "offline"
    device := .error "offline"
    currentPlayback := .error "offline"
    savedTracksContains := fun _ => .error "offline"
    userPlaylistTracks := fun _ _ _ => .error "offline"
    searchTrack := fun _ _ _ => .error "offline"
    searchArtist := fun _ _ _ => .error "offline"
    searchAlbum := fun _ _ _ => .error "offline"
    searchPlaylist := fun _ _ _ => .error "offline"
    currentUserSavedTracks := fun _ _ => .error "offline"
    startPlayback := fun _ _ _ _ => .error "offline"
    seekTrack := fun _ _ => .error "offline"
    nextTrack := fun _ => .error "offline"
    previousTrack := fun _ => .error "offline"
    shuffle := fun _ _ => .error "offline"
    repeatCall := fun _ _ => .error "offline"
    pausePlayback := fun _ => .error "offline"
    volume := fun _ _ => .error "offline"
    artistAlbums := fun _ _ _ => .error "offline"
    artist := fun _ => .error "offline"
    artistTopTracks := fun _ _ => .error "offline"
    artistRelatedArtists := fun _ => .error "offline"
    albumTrack := fun _ _ => .error "offline"
    recommendations := fun _ _ _ _ => .error "offline"
    tracksBatch := fun _ => .error "offline"
    track := fun _ => .error "offline"
    savedTracksDelete := fun _ => .error "offline"
    savedTracksAdd := fun _ => .error "offline"
    currentUserFollowedArtists := fun _ _ => .error "offline"
    currentUserSavedAlbums := fun _ _ => .error "offline"
    savedAlbumsDelete := fun _ => .error "offline"
    savedAlbumsAdd := fun _ => .error "offline"
    userFollowArtists := fun _ => .error "offline"
    userUnfollowArtists := fun _ => .error "offline"
    followPlaylist := fun _ _ _ => .error "offline"
    unfollowPlaylist := fun _ _ => .error "offline"
    audioAnalysis := fun _ => .error "offline"
    currentUserPlaylists := fun _ => .error "offline"
    recentlyPlayed := fun _ => .error "offline"
    album := fun _ => .error "offline"
    setDeviceId := fun _ => .error "offline" }

/-- A concrete network component with no selected output device. -/
def net0 : Network :=
  Network.new ⟨⟨"token", 3600⟩⟩ 0 { device_id := none }

/-- A concrete network component with a selected output device `d1`. -/
def net1 : Network :=
  Network.new ⟨⟨"token", 3600⟩⟩ 0 { device_id := some "d1" }

/-- Any item without a track makes the unwrapping map panic. -/
lemma unwrap_playlist_tracks_error_of_missing :
    ∀ items : List PlaylistTrack, (∃ item ∈ items, item.track = none) →
      ∃ msg, unwrap_playlist_tracks items = .error msg := by
  intro items h
  induction items with
  | nil => simp at h
  | cons item rest ih =>
      rcases h with ⟨it, hit, hnone⟩
      rcases List.mem_cons.mp hit with rfl | hmem
      · exact ⟨"called Option unwrap on a None value",
          by simp [unwrap_playlist_tracks, hnone]⟩
      · cases htr : item.track with
        | none =>
            exact ⟨"called Option unwrap on a None value",
              by simp [unwrap_playlist_tracks, htr]⟩
        | some t =>
            rcases ih ⟨it, hmem, hnone⟩ with ⟨msg, hmsg⟩
            exact ⟨msg, by simp [unwrap_playlist_tracks, htr, hmsg, Except.map]⟩

/-- C8: the repeat-state rotation of the Repeat handler maps Off to Context,
Context to Track and Track to Off, hence is a 3-cycle; and the handler always
issues its remote repeat call with the rotated state. -/
theorem C8_repeat_rotation :
    next_repeat_state RepeatState.Off = RepeatState.Context ∧
    next_repeat_state RepeatState.Context = RepeatState.Track ∧
    next_repeat_state RepeatState.Track = RepeatState.Off ∧
    (∀ s : RepeatState,
      next_repeat_state (next_repeat_state (next_repeat_state s)) = s) ∧
    (∀ (net : Network) (env : Env) (app : App) (s : RepeatState),
      ∃ a, net.repeat_playback env app s =
        .ok (a, [RC.repeatCall (next_repeat_state s) net.client_config.device_id])) := by
  refine ⟨rfl, rfl, rfl, ?_, ?_⟩
  · intro s; cases s <;> rfl
  · intro net env app s
    cases h : env.repeatCall (next_repeat_state s) net.client_config.device_id with
    | ok u =>
        cases hc : app.current_playback_context with
        | some c =>
            exact ⟨{ app with current_playback_context := some ({ c with
                       repeat_state := next_repeat_state s }) },
                   by simp [Network.repeat_playback, h, hc]⟩
        | none => exact ⟨app, by simp [Network.repeat_playback, h, hc]⟩
    | error e =>
        exact ⟨app.handle_error e, by simp [Network.repeat_playback, h]⟩

/-- C9: `set_playlist_tracks_to_table` unconditionally unwraps each item's
optional track; a page with any trackless item makes the operation panic
(modelled as `Except.error`) rather than return or report an error. -/
theorem C9_playlist_unwrap_panics (net : Network) (env : Env) (app : App)
    (page : Page PlaylistTrack)
    (h : ∃ item ∈ page.items, item.track = none) :
    ∃ msg, net.set_playlist_tracks_to_table env app page = .error msg := by
  rcases unwrap_playlist_tracks_error_of_missing page.items h with ⟨msg, hmsg⟩
  exact ⟨msg, by simp [Network.set_playlist_tracks_to_table, hmsg]⟩

/-- C9 witness: a concrete one-item page with a missing track panics. -/
theorem C9_playlist_unwrap_panics_witness :
    (∃ item ∈ (⟨[⟨none⟩]⟩ : Page PlaylistTrack).items, item.track = none) ∧
    ∃ msg, net0.set_playlist_tracks_to_table env0 app0 ⟨[⟨none⟩]⟩ = .error msg :=
  ⟨⟨⟨none⟩, by simp⟩,
   C9_playlist_unwrap_panics net0 env0 app0 ⟨[⟨none⟩]⟩ ⟨⟨none⟩, by simp⟩⟩

/-- Full case characterization of `current_user_saved_tracks_contains`: the
call always completes, updating the liked set on success and recording the
failure otherwise. -/
lemma contains_cases (net : Network) (env : Env) (app : App) (ids : List String) :
    (∃ v, env.savedTracksContains ids = .ok v ∧
      net.current_user_saved_tracks_contains env app ids =
        .ok ({ app with liked_song_ids_set :=
                 apply_contains app.liked_song_ids_set ids v },
             [RC.savedTracksContains ids])) ∨
    (∃ e, env.savedTracksContains ids = .error e ∧
      net.current_user_saved_tracks_contains env app ids =
        .ok (app.handle_error e, [RC.savedTracksContains ids])) := by
  cases h : env.savedTracksContains ids with
  | ok v =>
      exact Or.inl ⟨v, rfl,
        by simp [Network.current_user_saved_tracks_contains, h]⟩
  | error e =>
      exact Or.inr ⟨e, rfl,
        by simp [Network.current_user_saved_tracks_contains, h]⟩

/-- The membership-check handler only touches the liked set and the error
sink; every other field of the shared state is preserved. -/
lemma contains_shape (net : Network) (env : Env) (app : App) (ids : List String) :
    ∃ a, net.current_user_saved_tracks_contains env app ids =
        .ok (a, [RC.savedTracksContains ids]) ∧
      a = { app with liked_song_ids_set := a.liked_song_ids_set,
                     errors := a.errors } := by
  rcases contains_cases net env app ids with ⟨v, _, heq⟩ | ⟨e, _, heq⟩
  · exact ⟨_, heq, rfl⟩
  · exact ⟨_, heq, rfl⟩

/-- The playback-refresh handler always completes, with the playback call at
the head of its trace, and only touches the playback snapshot, the poll
timestamp, the liked set and the error sink. -/
lemma get_current_playback_shape (net : Network) (env : Env) (app : App) :
    ∃ a tr, net.get_current_playback env app = .ok (a, RC.currentPlayback :: tr) ∧
      a = { app with
              liked_song_ids_set := a.liked_song_ids_set
              errors := a.errors
              current_playback_context := a.current_playback_context
              instant_since_last_current_playback_poll :=
                a.instant_since_last_current_playback_poll } := by
  cases h : env.currentPlayback with
  | error e =>
      exact ⟨app, [], by simp [Network.get_current_playback, h], rfl⟩
  | ok ctx =>
      cases ctx with
      | none => exact ⟨app, [], by simp [Network.get_current_playback, h], rfl⟩
      | some c =>
          cases hit : c.item with
          | none =>
              refine ⟨{ app with
                          current_playback_context := some c
                          instant_since_last_current_playback_poll := env.now },
                      [], by simp [Network.get_current_playback, h, hit], rfl⟩
          | some t =>
              cases hid : t.id with
              | none =>
                  refine ⟨{ app with
                              current_playback_context := some c
                              instant_since_last_current_playback_poll := env.now },
                          [], by simp [Network.get_current_playback, h, hit, hid], rfl⟩
              | some track_id =>
                  rcases contains_shape net env app [track_id] with ⟨a1, hc, hs⟩
                  refine ⟨{ a1 with
                              current_playback_context := some c
                              instant_since_last_current_playback_poll := env.now },
                          [RC.savedTracksContains [track_id]],
                          by simp [Network.get_current_playback, h, hit, hid, hc], ?_⟩
                  conv_lhs => rw [hs]

/-- A concrete playback snapshot with shuffle off. -/
def ctx0 : CurrentlyPlaybackContext :=
  { item := none
    shuffle_state := false
    repeat_state := RepeatState.Off
    device := { volume_percent := 50 } }

/-- A concrete shared state currently holding the snapshot `ctx0`. -/
def app_ctx : App := { app0 with current_playback_context := some ctx0 }

/-- A concrete environment whose shuffle call succeeds. -/
def env_shuffle_ok : Env := { env0 with shuffle := fun _ _ => .ok () }

/-- The Shuffle handler always completes with exactly one remote call, made
with the negated supplied state. -/
lemma shuffle_call_trace (net : Network) (env : Env) (app : App) (b : Bool) :
    ∃ a, net.shuffle env app b =
      .ok (a, [RC.shuffle (!b) net.client_config.device_id]) := by
  cases h : env.shuffle (!b) net.client_config.device_id with
  | ok u =>
      cases hc : app.current_playback_context with
      | some c =>
          exact ⟨{ app with current_playback_context := some ({ c with
                     shuffle_state := !b }) },
                 by simp [Network.shuffle, h, hc]⟩
      | none => exact ⟨app, by simp [Network.shuffle, h, hc]⟩
  | error e => exact ⟨app.handle_error e, by simp [Network.shuffle, h]⟩

/-- C10: the Shuffle(b) handler issues the remote shuffle call with the
negated value, and on success patches the snapshot's shuffle field to that
negated value — it toggles away from the supplied current state. -/
theorem C10_shuffle_negates (net : Network) (env : Env) (app : App) (b : Bool) :
    (∃ a, net.shuffle env app b =
        .ok (a, [RC.shuffle (!b) net.client_config.device_id])) ∧
    (env.shuffle (!b) net.client_config.device_id = .ok () →
      ∀ ctx, app.current_playback_context = some ctx →
        net.shuffle env app b =
          .ok ({ app with current_playback_context := some ({ ctx with
                   shuffle_state := !b }) },
               [RC.shuffle (!b) net.client_config.device_id])) := by
  constructor
  · exact shuffle_call_trace net env app b
  · intro h ctx hctx
    simp [Network.shuffle, h, hctx]

/-- C10 witness: with shuffle currently off, `Shuffle false` issues the
remote call with `true` and patches the snapshot to `true`. -/
theorem C10_shuffle_negates_witness :
    env_shuffle_ok.shuffle (!false) net1.client_config.device_id = .ok () ∧
    app_ctx.current_playback_context = some ctx0 ∧
    net1.shuffle env_shuffle_ok app_ctx false =
      .ok ({ app_ctx with current_playback_context := some ({ ctx0 with
               shuffle_state := true }) },
           [RC.shuffle true (some "d1")]) :=
  ⟨rfl, rfl,
   (C10_shuffle_negates net1 env_shuffle_ok app_ctx false).2 rfl ctx0 rfl⟩

/-- C3 counterexample: with no device id configured, the Seek handler is a
silent no-op — it issues no remote call and records no error, contradicting
the claim that every transport command reports a missing device. -/
theorem C3_counterexample :
    net0.client_config.device_id = none ∧
    net0.seek env0 app0 1000 = .ok (app0, []) ∧
    app0.errors = [] :=
  ⟨rfl, rfl, rfl⟩

/-- C3 amended: with no device id configured, `start_playback` records the
missing-device error before issuing any remote call, but `seek` silently
does nothing, and the remaining transport handlers (here next-track and
shuffle) forward the absent device id to the remote call unchecked. -/
theorem C3_amended_missing_device (net : Network) (env : Env) (app : App)
    (position_ms : Nat) (context_uri : Option String)
    (uris : Option (List String)) (offset : Option Nat) (b : Bool)
    (hdev : net.client_config.device_id = none) :
    net.seek env app position_ms = .ok (app, []) ∧
    net.start_playback env app context_uri uris offset =
      .ok (app.handle_error "No device_id selected", []) ∧
    (∃ a tr, net.next_track env app = .ok (a, RC.nextTrack none :: tr)) ∧
    (∃ a, net.shuffle env app b = .ok (a, [RC.shuffle (!b) none])) := by
  refine ⟨by simp [Network.seek, hdev], by simp [Network.start_playback, hdev], ?_, ?_⟩
  · cases h : env.nextTrack none with
    | ok u =>
        rcases get_current_playback_shape net env app with ⟨a, tr, hg, _⟩
        exact ⟨a, RC.currentPlayback :: tr,
          by simp [Network.next_track, hdev, h, hg]⟩
    | error e =>
        exact ⟨app.handle_error e, [], by simp [Network.next_track, hdev, h]⟩
  · have hsh := shuffle_call_trace net env app b
    rwa [hdev] at hsh

/-- C3 amended witness: the four conjuncts at a concrete deviceless
configuration. -/
theorem C3_amended_missing_device_witness :
    net0.client_config.device_id = none ∧
    net0.seek env0 app0 7 = .ok (app0, []) ∧
    net0.start_playback env0 app0 (some "ctx") none none =
      .ok (app0.handle_error "No device_id selected", []) ∧
    (∃ a tr, net0.next_track env0 app0 = .ok (a, RC.nextTrack none :: tr)) ∧
    (∃ a, net0.shuffle env0 app0 false = .ok (a, [RC.shuffle (!false) none])) := by
  have h := C3_amended_missing_device net0 env0 app0 7 (some "ctx") none none false rfl
  exact ⟨rfl, h.1, h.2.1, h.2.2.1, h.2.2.2⟩

/-- The device-list handler always completes with exactly its one call. -/
lemma get_devices_ok (net : Network) (env : Env) (app : App) :
    ∃ a, net.get_devices env app = .ok (a, [RC.device]) := by
  cases h : env.device with
  | error e => exact ⟨app, by simp [Network.get_devices, h]⟩
  | ok result =>
      by_cases hd : result.devices = []
      · exact ⟨app.push_navigation_stack RouteId.SelectedDevice
            ActiveBlock.SelectDevice,
          by simp [Network.get_devices, h, hd]⟩
      · exact ⟨{ app.push_navigation_stack RouteId.SelectedDevice
                   ActiveBlock.SelectDevice with
                   devices := some result
                   selected_device_index := some 0 },
          by simp [Network.get_devices, h, hd]⟩

/-- C2 counterexample: a failing device-list call is silently dropped by
`get_devices` — the state is unchanged and no error is recorded, so not
every remote failure is funneled to the error-reporting path. -/
theorem C2_counterexample :
    env0.device = .error "offline" ∧
    net0.get_devices env0 app0 = .ok (app0, [RC.device]) ∧
    app0.errors = [] :=
  ⟨rfl, rfl, rfl⟩

/-- C2 amended: handlers that match on the remote result (here `get_user`)
funnel failures to the error-reporting path, which records exactly one error
in shared state; but the handlers written with an `if let Ok` (`get_devices`,
`get_playlist_tracks`) silently discard failures. In either case the failure
does not propagate: dispatch still completes and clears the loading flag. -/
theorem C2_amended_error_funnel (net : Network) (env : Env) (app : App)
    (pid : String) (off : Nat) :
    (∀ e, env.currentUser = .error e →
      net.get_user env app =
        .ok ({ app with errors := app.errors ++ [e] }, [RC.currentUser])) ∧
    (∀ e, env.device = .error e →
      net.get_devices env app = .ok (app, [RC.device])) ∧
    (∀ e, env.userPlaylistTracks pid net.large_search_limit off = .error e →
      net.get_playlist_tracks env app pid off =
        .ok (app, [RC.userPlaylistTracks pid net.large_search_limit off])) ∧
    (∃ x, net.handle_network_event env app IoEvent.GetDevices = .ok x ∧
      x.2.1.is_loading = false) := by
  refine ⟨?_, ?_, ?_, ?_⟩
  · intro e h
    simp [Network.get_user, Network.report_error, App.handle_error, h]
  · intro e h
    simp [Network.get_devices, h]
  · intro e h
    simp [Network.get_playlist_tracks, h]
  · rcases get_devices_ok net env app with ⟨a, hg⟩
    exact ⟨(net, { a with is_loading := false }, [RC.device]),
      by simp [Network.handle_network_event, Network.dispatch_body, hg, Except.map],
      rfl⟩

/-- C2 amended witness: the conjuncts at a concrete failing environment. -/
theorem C2_amended_error_funnel_witness :
    (net0.get_user env0 app0 =
      .ok ({ app0 with errors := ["offline"] }, [RC.currentUser])) ∧
    (net0.get_devices env0 app0 = .ok (app0, [RC.device])) ∧
    (net0.get_playlist_tracks env0 app0 "p" 0 =
      .ok (app0, [RC.userPlaylistTracks "p" 20 0])) ∧
    (∃ x, net0.handle_network_event env0 app0 IoEvent.GetDevices = .ok x ∧
      x.2.1.is_loading = false) := by
  have h := C2_amended_error_funnel net0 env0 app0 "p" 0
  exact ⟨h.1 "offline" rfl, h.2.1 "offline" rfl, h.2.2.1 "offline" rfl, h.2.2.2⟩

/-- Push specification: with a top entry present, pushing its own route is a
no-op and pushing any other route appends exactly one entry. -/
lemma push_navigation_stack_spec (app : App) (r : RouteId) (b : ActiveBlock)
    (top : Route) (h : app.navigation_stack.getLast? = some top) :
    (top.id = r →
      (app.push_navigation_stack r b).navigation_stack = app.navigation_stack) ∧
    (top.id ≠ r →
      (app.push_navigation_stack r b).navigation_stack =
        app.navigation_stack ++ [⟨r, b⟩]) := by
  unfold App.push_navigation_stack
  rw [h]
  constructor
  · intro ht; simp [ht]
  · intro ht; simp [ht]

/-- The recently-played handler, on a successful page fetch, ends with the
stack produced by pushing the recently-played route on the incoming stack. -/
lemma get_recently_played_nav (net : Network) (env : Env) (app : App)
    (result : RecentlyPlayedResult)
    (henv : env.recentlyPlayed net.large_search_limit = .ok result)
    (top : Route) (htop : app.navigation_stack.getLast? = some top) :
    ∃ a tr, net.get_recently_played env app = .ok (a, tr) ∧
      (top.id = RouteId.RecentlyPlayed →
        a.navigation_stack = app.navigation_stack) ∧
      (top.id ≠ RouteId.RecentlyPlayed →
        a.navigation_stack = app.navigation_stack ++
          [⟨RouteId.RecentlyPlayed, ActiveBlock.RecentlyPlayed⟩]) := by
  rcases contains_shape net env app
      (result.items.filterMap (fun item => item.track.id)) with ⟨a1, hc, hs⟩
  have hnav : a1.navigation_stack = app.navigation_stack := by rw [hs]
  refine ⟨({ a1 with recently_played := { result := some result } } :
              App).push_navigation_stack RouteId.RecentlyPlayed
            ActiveBlock.RecentlyPlayed,
          RC.recentlyPlayed net.large_search_limit ::
            [RC.savedTracksContains (result.items.filterMap (fun item => item.track.id))],
          by simp [Network.get_recently_played, henv, hc], ?_⟩
  have htop2 : ({ a1 with recently_played := { result := some result } } :
      App).navigation_stack.getLast? = some top := by
    show a1.navigation_stack.getLast? = some top
    rw [hnav]; exact htop
  have hspec := push_navigation_stack_spec
    { a1 with recently_played := { result := some result } }
    RouteId.RecentlyPlayed ActiveBlock.RecentlyPlayed top htop2
  constructor
  · intro ht
    rw [hspec.1 ht]; exact hnav
  · intro ht
    rw [hspec.2 ht]; show a1.navigation_stack ++ _ = _; rw [hnav]

/-- C6: a navigation push is a no-op when the top entry's route already
equals the target route, and otherwise appends exactly one entry; in
particular the recently-played handler, which pushes its route, leaves the
stack unchanged when already on that route. -/
theorem C6_push_only_when_new (app : App) (r : RouteId) (b : ActiveBlock) :
    (∀ top, app.navigation_stack.getLast? = some top →
      (top.id = r →
        (app.push_navigation_stack r b).navigation_stack = app.navigation_stack) ∧
      (top.id ≠ r →
        (app.push_navigation_stack r b).navigation_stack =
          app.navigation_stack ++ [⟨r, b⟩])) ∧
    (∀ (net : Network) (env : Env) (result : RecentlyPlayedResult),
      env.recentlyPlayed net.large_search_limit = .ok result →
      ∀ top, app.navigation_stack.getLast? = some top →
      ∃ a tr, net.get_recently_played env app = .ok (a, tr) ∧
        (top.id = RouteId.RecentlyPlayed →
          a.navigation_stack = app.navigation_stack) ∧
        (top.id ≠ RouteId.RecentlyPlayed →
          a.navigation_stack = app.navigation_stack ++
            [⟨RouteId.RecentlyPlayed, ActiveBlock.RecentlyPlayed⟩])) :=
  ⟨fun top h => push_navigation_stack_spec app r b top h,
   fun net env result henv top htop =>
     get_recently_played_nav net env app result henv top htop⟩

/-- A concrete environment with a successful, empty recently-played page. -/
def env_rp : Env := { env0 with
  recentlyPlayed := fun _ => .ok ⟨[]⟩
  savedTracksContains := fun _ => .ok [] }

/-- C6 witness: on the home route, pushing the track-table route appends one
entry, and the recently-played handler appends its route. -/
theorem C6_push_only_when_new_witness :
    app0.navigation_stack.getLast? = some default_route ∧
    default_route.id ≠ RouteId.TrackTable ∧
    (app0.push_navigation_stack RouteId.TrackTable
        ActiveBlock.TrackTable).navigation_stack =
      app0.navigation_stack ++ [⟨RouteId.TrackTable, ActiveBlock.TrackTable⟩] ∧
    ∃ a tr, net0.get_recently_played env_rp app0 = .ok (a, tr) ∧
      a.navigation_stack = app0.navigation_stack ++
        [⟨RouteId.RecentlyPlayed, ActiveBlock.RecentlyPlayed⟩] := by
  have h := C6_push_only_when_new app0 RouteId.TrackTable ActiveBlock.TrackTable
  refine ⟨rfl, by decide, (h.1 default_route rfl).2 (by decide), ?_⟩
  rcases h.2 net0 env_rp ⟨[]⟩ rfl default_route rfl with ⟨a, tr, hg, _, hne⟩
  exact ⟨a, tr, hg, hne (by decide)⟩

/-- C7: `start_playback` resolves the context URI with precedence over the
URI list (the remote call carries the context URI and no URI list when both
are supplied); with no selected device it records the missing-device error
without issuing any remote call; and on a successful remote start it
performs a full playback refresh and resets the song-progress counter to
zero. -/
theorem C7_start_playback_contract (net : Network) (env : Env) (app : App) :
    (∀ (d c : String) (us : Option (List String)) (o : Option Nat),
      net.client_config.device_id = some d →
      ∃ a tr, net.start_playback env app (some c) us o =
        .ok (a, RC.startPlayback (some d) (some c) none o :: tr)) ∧
    (∀ (c : Option String) (us : Option (List String)) (o : Option Nat),
      net.client_config.device_id = none →
      net.start_playback env app c us o =
        .ok (app.handle_error "No device_id selected", [])) ∧
    (∀ (d c : String) (us : Option (List String)) (o : Option Nat),
      net.client_config.device_id = some d →
      env.startPlayback (some d) (some c) none o = .ok () →
      ∃ a tr, net.start_playback env app (some c) us o =
        .ok (a, RC.startPlayback (some d) (some c) none o ::
              RC.currentPlayback :: tr) ∧
        a.song_progress_ms = 0) := by
  refine ⟨?_, ?_, ?_⟩
  · intro d c us o hdev
    cases h : env.startPlayback (some d) (some c) none o with
    | ok u =>
        rcases get_current_playback_shape net env app with ⟨a1, tr1, hg, _⟩
        exact ⟨{ a1 with song_progress_ms := 0 }, RC.currentPlayback :: tr1,
          by simp [Network.start_playback, hdev, h, hg]⟩
    | error e =>
        exact ⟨app.handle_error e, [],
          by simp [Network.start_playback, hdev, h]⟩
  · intro c us o hdev
    simp [Network.start_playback, hdev]
  · intro d c us o hdev h
    rcases get_current_playback_shape net env app with ⟨a1, tr1, hg, _⟩
    exact ⟨{ a1 with song_progress_ms := 0 }, tr1,
      by simp [Network.start_playback, hdev, h, hg], rfl⟩

/-- A concrete environment whose start-playback call succeeds. -/
def env_sp : Env := { env0 with startPlayback := fun _ _ _ _ => .ok () }

/-- C7 witness: with device `d1` and both a context URI and a URI list
supplied, the remote call carries the context URI only, the refresh call
follows, and the progress counter ends at zero; with no device the handler
records the error and issues no call. -/
theorem C7_start_playback_contract_witness :
    net1.client_config.device_id = some "d1" ∧
    env_sp.startPlayback (some "d1") (some "cu") none (some 0) = .ok () ∧
    (∃ a tr, net1.start_playback env_sp app0 (some "cu") (some ["u1"]) (some 0) =
      .ok (a, RC.startPlayback (some "d1") (some "cu") none (some 0) ::
            RC.currentPlayback :: tr) ∧
      a.song_progress_ms = 0) ∧
    net0.start_playback env_sp app0 none (some ["u1"]) none =
      .ok (app0.handle_error "No device_id selected", []) :=
  ⟨rfl, rfl,
   (C7_start_playback_contract net1 env_sp app0).2.2 "d1" "cu" (some ["u1"])
     (some 0) rfl rfl,
   (C7_start_playback_contract net0 env_sp app0).2.1 none (some ["u1"]) none rfl⟩

/-- A step of the liked-set loop for a different id leaves membership of the
id unchanged. -/
lemma liked_step_mem_ne (l : Finset String) (x id : String) (b : Bool)
    (h : x ≠ id) : id ∈ liked_step l x b ↔ id ∈ l := by
  unfold liked_step
  split_ifs with hb hmem
  · simp [Finset.mem_insert, Ne.symm h]
  · simp [Finset.mem_erase, Ne.symm h]
  · rfl

/-- A step of the liked-set loop for the id itself leaves it in the set
exactly when the response bit is true. -/
lemma liked_step_mem_self (l : Finset String) (id : String) (b : Bool) :
    (id ∈ liked_step l id b) ↔ b = true := by
  cases b with
  | true => simp [liked_step]
  | false =>
      by_cases hmem : id ∈ l
      · simp [liked_step, hmem, Finset.mem_erase]
      · simp [liked_step, hmem]

/-- Folding the loop over pairs that never mention the id preserves its
membership. -/
lemma foldl_liked_mem_of_not_mem :
    ∀ (pairs : List (String × Bool)) (l : Finset String) (id : String),
      (∀ p ∈ pairs, p.1 ≠ id) →
      (id ∈ pairs.foldl (fun acc p => liked_step acc p.1 p.2) l ↔ id ∈ l) := by
  intro pairs
  induction pairs with
  | nil => intro l id _; simp
  | cons p rest ih =>
      intro l id h
      rw [List.foldl_cons]
      rw [ih _ id (fun q hq => h q (List.mem_cons_of_mem p hq))]
      exact liked_step_mem_ne l p.1 id p.2 (h p (List.mem_cons_self p rest))

/-- Folding the loop over pairs whose bits are uniform for the id decides
its final membership by that bit, provided the id occurs at all. -/
lemma foldl_liked_mem_uniform :
    ∀ (pairs : List (String × Bool)) (l : Finset String) (id : String) (b : Bool),
      (∀ p ∈ pairs, p.1 = id → p.2 = b) →
      (∃ p ∈ pairs, p.1 = id) →
      (id ∈ pairs.foldl (fun acc p => liked_step acc p.1 p.2) l ↔ b = true) := by
  intro pairs
  induction pairs with
  | nil =>
      intro l id b _ hex
      rcases hex with ⟨p, hp, _⟩
      simp at hp
  | cons p rest ih =>
      intro l id b hall hex
      rw [List.foldl_cons]
      by_cases hrest : ∃ q ∈ rest, q.1 = id
      · exact ih _ id b (fun q hq hq1 => hall q (List.mem_cons_of_mem p hq) hq1) hrest
      · have hp1 : p.1 = id := by
          rcases hex with ⟨q, hq, hq1⟩
          rcases List.mem_cons.mp hq with rfl | hqmem
          · exact hq1
          · exact absurd ⟨q, hqmem, hq1⟩ hrest
        have hp2 : p.2 = b := hall p (List.mem_cons_self p rest) hp1
        rw [foldl_liked_mem_of_not_mem rest _ id
          (fun q hq hq1 => hrest ⟨q, hq, hq1⟩)]
        rw [hp1, hp2]
        exact liked_step_mem_self l id b

/-- Membership after the positional liked-set update. -/
lemma apply_contains_mem (l : Finset String) (ids : List String)
    (resp : List Bool) (id : String) (b : Bool)
    (hall : ∀ p ∈ ids.zip resp, p.1 = id → p.2 = b)
    (hex : ∃ p ∈ ids.zip resp, p.1 = id) :
    (id ∈ apply_contains l ids resp ↔ b = true) :=
  foldl_liked_mem_uniform (ids.zip resp) l id b hall hex

/-- C4: after `set_tracks_to_table` completes with a successful membership
check, every id present in both the derived id list and the response is in
the liked set exactly when the response reported true for it. -/
theorem C4_liked_matches_response (net : Network) (env : Env) (app : App)
    (tracks : List FullTrack) (resp : List Bool) (id : String) (b : Bool)
    (henv : env.savedTracksContains (tracks.filterMap (fun t => t.id)) = .ok resp)
    (hcons : ∀ p ∈ (tracks.filterMap (fun t => t.id)).zip resp,
      p.1 = id → p.2 = b)
    (hpres : ∃ p ∈ (tracks.filterMap (fun t => t.id)).zip resp, p.1 = id) :
    ∃ a tr, net.set_tracks_to_table env app tracks = .ok (a, tr) ∧
      a.track_table.tracks = tracks ∧
      (id ∈ a.liked_song_ids_set ↔ b = true) := by
  refine ⟨{ app with
              liked_song_ids_set := apply_contains app.liked_song_ids_set
                (tracks.filterMap (fun t => t.id)) resp
              track_table := { app.track_table with tracks := tracks } },
          [RC.savedTracksContains (tracks.filterMap (fun t => t.id))],
          by simp [Network.set_tracks_to_table,
                Network.current_user_saved_tracks_contains, henv],
          rfl,
          apply_contains_mem app.liked_song_ids_set _ resp id b hcons hpres⟩

/-- A concrete environment whose membership check answers true then false. -/
def env_c4 : Env := { env0 with savedTracksContains := fun _ => .ok [true, false] }

/-- Two concrete tracks with ids `a` and `c`. -/
def tracks_c4 : List FullTrack := [⟨some "a", "ua"⟩, ⟨some "c", "uc"⟩]

/-- C4 witness: id `a`, reported true, ends in the liked set. -/
theorem C4_liked_matches_response_witness :
    env_c4.savedTracksContains (tracks_c4.filterMap (fun t => t.id)) =
      .ok [true, false] ∧
    (∀ p ∈ (tracks_c4.filterMap (fun t => t.id)).zip [true, false],
      p.1 = "a" → p.2 = true) ∧
    (∃ p ∈ (tracks_c4.filterMap (fun t => t.id)).zip [true, false], p.1 = "a") ∧
    ∃ a tr, net0.set_tracks_to_table env_c4 app0 tracks_c4 = .ok (a, tr) ∧
      a.track_table.tracks = tracks_c4 ∧
      ("a" ∈ a.liked_song_ids_set ↔ true = true) :=
  ⟨rfl, by decide, by decide,
   C4_liked_matches_response net0 env_c4 app0 tracks_c4 [true, false] "a" true
     rfl (by decide) (by decide)⟩

/-- C5: the Search handler issues all four searches and joins them; a
failure of the join records exactly one error and leaves all four result
fields (and everything else) unchanged, while a success of all four writes
all four result fields and re-runs the membership check for the returned
tracks. -/
theorem C5_search_single_join (net : Network) (env : Env) (app : App)
    (term : String) (country : Option String) :
    (∀ e, try_join4 (env.searchTrack term net.small_search_limit country)
        (env.searchArtist term net.small_search_limit country)
        (env.searchAlbum term net.small_search_limit country)
        (env.searchPlaylist term net.small_search_limit country) = .error e →
      net.get_search_results env app term country =
        .ok ({ app with errors := app.errors ++ [e] },
             [RC.searchTrack term net.small_search_limit,
              RC.searchArtist term net.small_search_limit,
              RC.searchAlbum term net.small_search_limit,
              RC.searchPlaylist term net.small_search_limit]) ∧
      ({ app with errors := app.errors ++ [e] } : App).search_results =
        app.search_results) ∧
    (∀ t ar al p,
      env.searchTrack term net.small_search_limit country = .ok t →
      env.searchArtist term net.small_search_limit country = .ok ar →
      env.searchAlbum term net.small_search_limit country = .ok al →
      env.searchPlaylist term net.small_search_limit country = .ok p →
      ∃ a, net.get_search_results env app term country =
        .ok (a, [RC.searchTrack term net.small_search_limit,
                 RC.searchArtist term net.small_search_limit,
                 RC.searchAlbum term net.small_search_limit,
                 RC.searchPlaylist term net.small_search_limit] ++
          [RC.savedTracksContains (t.tracks.items.filterMap (fun x => x.id))]) ∧
        a.search_results = { tracks := some t, artists := some ar,
                             albums := some al, playlists := some p }) := by
  constructor
  · intro e h
    refine ⟨?_, rfl⟩
    simp only [Network.get_search_results, h]
    simp [App.handle_error]
  · intro t ar al p ht har hal hp
    rcases contains_shape net env app (t.tracks.items.filterMap (fun x => x.id))
      with ⟨a1, hc, _⟩
    refine ⟨{ { a1 with track_table :=
                  { a1.track_table with tracks := t.tracks.items } } with
                search_results := { tracks := some t, artists := some ar,
                                    albums := some al, playlists := some p } },
            ?_, rfl⟩
    simp [Network.get_search_results, ht, har, hal, hp, try_join4,
      Network.set_tracks_to_table, hc]

/-- A concrete environment where all four searches and the membership check
succeed. -/
def env_c5 : Env := { env0 with
  searchTrack := fun _ _ _ => .ok ⟨⟨[⟨some "a", "ua"⟩]⟩⟩
  searchArtist := fun _ _ _ => .ok ⟨⟨["art"]⟩⟩
  searchAlbum := fun _ _ _ => .ok ⟨⟨[⟨some "alb"⟩]⟩⟩
  searchPlaylist := fun _ _ _ => .ok ⟨⟨[⟨"own", "pl"⟩]⟩⟩
  savedTracksContains := fun _ => .ok [true] }

/-- C5 witness: the failing join at the all-failing environment and the
succeeding join at the all-succeeding one. -/
theorem C5_search_single_join_witness :
    (net0.get_search_results env0 app0 "q" none =
      .ok ({ app0 with errors := ["offline"] },
           [RC.searchTrack "q" 4, RC.searchArtist "q" 4,
            RC.searchAlbum "q" 4, RC.searchPlaylist "q" 4])) ∧
    (∃ a, net0.get_search_results env_c5 app0 "q" none =
      .ok (a, [RC.searchTrack "q" 4, RC.searchArtist "q" 4,
               RC.searchAlbum "q" 4, RC.searchPlaylist "q" 4] ++
        [RC.savedTracksContains ["a"]]) ∧
      a.search_results = { tracks := some ⟨⟨[⟨some "a", "ua"⟩]⟩⟩,
                           artists := some ⟨⟨["art"]⟩⟩,
                           albums := some ⟨⟨[⟨some "alb"⟩]⟩⟩,
                           playlists := some ⟨⟨[⟨"own", "pl"⟩]⟩⟩ }) :=
  ⟨((C5_search_single_join net0 env0 app0 "q" none).1 "offline" rfl).1,
   (C5_search_single_join net0 env_c5 app0 "q" none).2 ⟨⟨[⟨some "a", "ua"⟩]⟩⟩
     ⟨⟨["art"]⟩⟩ ⟨⟨[⟨some "alb"⟩]⟩⟩ ⟨⟨[⟨"own", "pl"⟩]⟩⟩ rfl rfl rfl rfl⟩

/-- The error sink does not touch the loading flag. -/
@[simp] lemma handle_error_is_loading (app : App) (e : String) :
    (app.handle_error e).is_loading = app.is_loading := rfl

/-- Pushing a navigation entry does not touch the loading flag. -/
@[simp] lemma push_is_loading (app : App) (r : RouteId) (b : ActiveBlock) :
    (app.push_navigation_stack r b).is_loading = app.is_loading := by
  unfold App.push_navigation_stack
  cases app.navigation_stack.getLast? with
  | none => rfl
  | some top =>
      by_cases ht : top.id = r
      · simp [ht]
      · simp [ht]

/-- Popping a navigation entry does not touch the loading flag. -/
@[simp] lemma pop_is_loading (app : App) :
    app.pop_navigation_stack.is_loading = app.is_loading := rfl

/-- Writing the saved-tracks page into the table does not touch the loading
flag. -/
@[simp] lemma set_saved_tracks_is_loading (app : App) (page : Page SavedTrack) :
    (app.set_saved_tracks_to_table page).is_loading = app.is_loading := rfl

/-- The membership-check handler preserves the loading flag. -/
lemma contains_loading (net : Network) (env : Env) (app : App)
    (ids : List String) :
    ∀ a tr, net.current_user_saved_tracks_contains env app ids = .ok (a, tr) →
      a.is_loading = app.is_loading := by
  intro a tr h
  rcases contains_shape net env app ids with ⟨a1, hc, hs⟩
  rw [hc] at h
  injection h with h2
  have h3 : a1 = a := congrArg Prod.fst h2
  rw [← h3, hs]

/-- The playback-refresh handler preserves the loading flag. -/
lemma get_current_playback_loading (net : Network) (env : Env) (app : App) :
    ∀ a tr, net.get_current_playback env app = .ok (a, tr) →
      a.is_loading = app.is_loading := by
  intro a tr h
  rcases get_current_playback_shape net env app with ⟨a1, tr1, hg, hs⟩
  rw [hg] at h
  injection h with h2
  have h3 : a1 = a := congrArg Prod.fst h2
  rw [← h3, hs]

/-- `get_user` preserves the loading flag. -/
lemma get_user_loading (net : Network) (env : Env) (app : App) :
    ∀ a tr, net.get_user env app = .ok (a, tr) →
      a.is_loading = app.is_loading := by
  intro a tr h
  cases henv : env.currentUser with
  | ok u =>
      simp [Network.get_user, henv] at h
      rcases h with ⟨rfl, rfl⟩
      rfl
  | error e =>
      simp [Network.get_user, Network.report_error, henv] at h
      rcases h with ⟨rfl, rfl⟩
      rfl

/-- `get_devices` preserves the loading flag. -/
lemma get_devices_loading (net : Network) (env : Env) (app : App) :
    ∀ a tr, net.get_devices env app = .ok (a, tr) →
      a.is_loading = app.is_loading := by
  intro a tr h
  cases henv : env.device with
  | ok result =>
      by_cases hd : result.devices = []
      · simp [Network.get_devices, henv, hd] at h
        rcases h with ⟨rfl, rfl⟩
        simp
      · simp [Network.get_devices, henv, hd] at h
        rcases h with ⟨rfl, rfl⟩
        simp [show ({ app.push_navigation_stack RouteId.SelectedDevice
          ActiveBlock.SelectDevice with
            devices := some result
            selected_device_index := some 0 } : App).is_loading =
          (app.push_navigation_stack RouteId.SelectedDevice
            ActiveBlock.SelectDevice).is_loading from rfl]
  | error e =>
      simp [Network.get_devices, henv] at h
      rcases h with ⟨rfl, rfl⟩
      rfl

/-- `get_current_user_playlists` preserves the loading flag. -/
lemma get_current_user_playlists_loading (net : Network) (env : Env) (app : App) :
    ∀ a tr, net.get_current_user_playlists env app = .ok (a, tr) →
      a.is_loading = app.is_loading := by
  intro a tr h
  cases henv : env.currentUserPlaylists net.large_search_limit with
  | ok p =>
      simp [Network.get_current_user_playlists, henv] at h
      rcases h with ⟨rfl, rfl⟩
      rfl
  | error e =>
      simp [Network.get_current_user_playlists, henv] at h
      rcases h with ⟨rfl, rfl⟩
      rfl

/-- `set_tracks_to_table` preserves the loading flag. -/
lemma set_tracks_to_table_loading (net : Network) (env : Env) (app : App)
    (tracks : List FullTrack) :
    ∀ a tr, net.set_tracks_to_table env app tracks = .ok (a, tr) →
      a.is_loading = app.is_loading := by
  intro a tr h
  rcases contains_shape net env app (tracks.filterMap (fun item => item.id))
    with ⟨a1, hc, hs⟩
  simp [Network.set_tracks_to_table, hc] at h
  rcases h with ⟨rfl, rfl⟩
  have : ({ a1 with track_table := { a1.track_table with tracks := tracks } } :
      App).is_loading = a1.is_loading := rfl
  rw [this, hs]

/-- `set_playlist_tracks_to_table` preserves the loading flag. -/
lemma set_playlist_tracks_loading (net : Network) (env : Env) (app : App)
    (page : Page PlaylistTrack) :
    ∀ a tr, net.set_playlist_tracks_to_table env app page = .ok (a, tr) →
      a.is_loading = app.is_loading := by
  intro a tr h
  cases hu : unwrap_playlist_tracks page.items with
  | ok tracks =>
      simp [Network.set_playlist_tracks_to_table, hu] at h
      exact set_tracks_to_table_loading net env app tracks a tr h
  | error e =>
      simp [Network.set_playlist_tracks_to_table, hu] at h

/-- `get_playlist_tracks` preserves the loading flag. -/
lemma get_playlist_tracks_loading (net : Network) (env : Env) (app : App)
    (pid : String) (off : Nat) :
    ∀ a tr, net.get_playlist_tracks env app pid off = .ok (a, tr) →
      a.is_loading = app.is_loading := by
  intro a tr h
  cases henv : env.userPlaylistTracks pid net.large_search_limit off with
  | ok page =>
      cases hsub : net.set_playlist_tracks_to_table env app page with
      | ok pr =>
          obtain ⟨a1, tr1⟩ := pr
          have h1 := set_playlist_tracks_loading net env app page a1 tr1 hsub
          simp [Network.get_playlist_tracks, henv, hsub] at h
          split at h
          · rcases h with ⟨rfl, rfl⟩
            simp [h1]
          · rcases h with ⟨rfl, rfl⟩
            simpa using h1
      | error e =>
          simp [Network.get_playlist_tracks, henv, hsub] at h
  | error e =>
      simp [Network.get_playlist_tracks, henv] at h
      rcases h with ⟨rfl, rfl⟩
      rfl

/-- `get_made_for_you_playlist_tracks` preserves the loading flag. -/
lemma get_made_for_you_loading (net : Network) (env : Env) (app : App)
    (pid : String) (off : Nat) :
    ∀ a tr, net.get_made_for_you_playlist_tracks env app pid off = .ok (a, tr) →
      a.is_loading = app.is_loading := by
  intro a tr h
  cases henv : env.userPlaylistTracks pid net.large_search_limit off with
  | ok page =>
      cases hsub : net.set_playlist_tracks_to_table env app page with
      | ok pr =>
          obtain ⟨a1, tr1⟩ := pr
          have h1 := set_playlist_tracks_loading net env app page a1 tr1 hsub
          simp [Network.get_made_for_you_playlist_tracks, henv, hsub] at h
          split at h
          · rcases h with ⟨rfl, rfl⟩
            simp [h1]
          · rcases h with ⟨rfl, rfl⟩
            simpa using h1
      | error e =>
          simp [Network.get_made_for_you_playlist_tracks, henv, hsub] at h
  | error e =>
      simp [Network.get_made_for_you_playlist_tracks, henv] at h
      rcases h with ⟨rfl, rfl⟩
      rfl

/-- `get_search_results` preserves the loading flag. -/
lemma get_search_results_loading (net : Network) (env : Env) (app : App)
    (term : String) (country : Option String) :
    ∀ a tr, net.get_search_results env app term country = .ok (a, tr) →
      a.is_loading = app.is_loading := by
  intro a tr h
  cases hj : try_join4 (env.searchTrack term net.small_search_limit country)
      (env.searchArtist term net.small_search_limit country)
      (env.searchAlbum term net.small_search_limit country)
      (env.searchPlaylist term net.small_search_limit country) with
  | ok quad =>
      obtain ⟨t, ar, al, p⟩ := quad
      cases hsub : net.set_tracks_to_table env app t.tracks.items with
      | ok pr =>
          obtain ⟨a1, tr1⟩ := pr
          have h1 := set_tracks_to_table_loading net env app t.tracks.items a1 tr1 hsub
          simp [Network.get_search_results, hj, hsub] at h
          rcases h with ⟨rfl, rfl⟩
          simpa using h1
      | error e =>
          simp [Network.get_search_results, hj, hsub] at h
  | error e =>
      simp [Network.get_search_results, hj] at h
      rcases h with ⟨rfl, rfl⟩
      rfl

/-- `get_current_user_saved_tracks` preserves the loading flag. -/
lemma get_saved_tracks_loading (net : Network) (env : Env) (app : App)
    (offset : Option Nat) (nav : Bool) :
    ∀ a tr, net.get_current_user_saved_tracks env app offset nav = .ok (a, tr) →
      a.is_loading = app.is_loading := by
  intro a tr h
  cases henv : env.currentUserSavedTracks net.large_search_limit offset with
  | ok page =>
      simp [Network.get_current_user_saved_tracks, henv] at h
      split at h
      · rcases h with ⟨rfl, rfl⟩
        simp
      · rcases h with ⟨rfl, rfl⟩
        simp
  | error e =>
      simp [Network.get_current_user_saved_tracks, henv] at h
      rcases h with ⟨rfl, rfl⟩
      rfl

/-- `start_playback` preserves the loading flag. -/
lemma start_playback_loading (net : Network) (env : Env) (app : App)
    (c : Option String) (us : Option (List String)) (o : Option Nat) :
    ∀ a tr, net.start_playback env app c us o = .ok (a, tr) →
      a.is_loading = app.is_loading := by
  intro a tr h
  rcases get_current_playback_shape net env app with ⟨a1, tr1, hg, hs⟩
  have h1 : a1.is_loading = app.is_loading := by rw [hs]
  cases hdev : net.client_config.device_id with
  | none =>
      simp [Network.start_playback, hdev] at h
      rcases h with ⟨rfl, rfl⟩
      rfl
  | some d =>
      cases c with
      | some cu =>
          cases hsp : env.startPlayback (some d) (some cu) none o with
          | ok u =>
              simp [Network.start_playback, hdev, hsp, hg] at h
              rcases h with ⟨rfl, rfl⟩
              simpa using h1
          | error e =>
              simp [Network.start_playback, hdev, hsp] at h
              rcases h with ⟨rfl, rfl⟩
              rfl
      | none =>
          cases us with
          | some ul =>
              cases hsp : env.startPlayback (some d) none (some ul) o with
              | ok u =>
                  simp [Network.start_playback, hdev, hsp, hg] at h
                  rcases h with ⟨rfl, rfl⟩
                  simpa using h1
              | error e =>
                  simp [Network.start_playback, hdev, hsp] at h
                  rcases h with ⟨rfl, rfl⟩
                  rfl
          | none =>
              cases hsp : env.startPlayback (some d) none none o with
              | ok u =>
                  simp [Network.start_playback, hdev, hsp, hg] at h
                  rcases h with ⟨rfl, rfl⟩
                  simpa using h1
              | error e =>
                  simp [Network.start_playback, hdev, hsp] at h
                  rcases h with ⟨rfl, rfl⟩
                  rfl

/-- `seek` preserves the loading flag. -/
lemma seek_loading (net : Network) (env : Env) (app : App) (pos : Nat) :
    ∀ a tr, net.seek env app pos = .ok (a, tr) →
      a.is_loading = app.is_loading := by
  intro a tr h
  rcases get_current_playback_shape net env app with ⟨a1, tr1, hg, hs⟩
  have h1 : a1.is_loading = app.is_loading := by rw [hs]
  cases hdev : net.client_config.device_id with
  | none =>
      simp [Network.seek, hdev] at h
      rcases h with ⟨rfl, rfl⟩
      rfl
  | some d =>
      cases hc : env.seekTrack pos (some d) with
      | ok u =>
          simp [Network.seek, hdev, hc, hg] at h
          rcases h with ⟨rfl, rfl⟩
          exact h1
      | error e =>
          simp [Network.seek, hdev, hc] at h
          rcases h with ⟨rfl, rfl⟩
          rfl

/-- `next_track` preserves the loading flag. -/
lemma next_track_loading (net : Network) (env : Env) (app : App) :
    ∀ a tr, net.next_track env app = .ok (a, tr) →
      a.is_loading = app.is_loading := by
  intro a tr h
  rcases get_current_playback_shape net env app with ⟨a1, tr1, hg, hs⟩
  have h1 : a1.is_loading = app.is_loading := by rw [hs]
  cases hc : env.nextTrack net.client_config.device_id with
  | ok u =>
      simp [Network.next_track, hc, hg] at h
      rcases h with ⟨rfl, rfl⟩
      exact h1
  | error e =>
      simp [Network.next_track, hc] at h
      rcases h with ⟨rfl, rfl⟩
      rfl

/-- `previous_track` preserves the loading flag. -/
lemma previous_track_loading (net : Network) (env : Env) (app : App) :
    ∀ a tr, net.previous_track env app = .ok (a, tr) →
      a.is_loading = app.is_loading := by
  intro a tr h
  rcases get_current_playback_shape net env app with ⟨a1, tr1, hg, hs⟩
  have h1 : a1.is_loading = app.is_loading := by rw [hs]
  cases hc : env.previousTrack net.client_config.device_id with
  | ok u =>
      simp [Network.previous_track, hc, hg] at h
      rcases h with ⟨rfl, rfl⟩
      exact h1
  | error e =>
      simp [Network.previous_track, hc] at h
      rcases h with ⟨rfl, rfl⟩
      rfl

/-- `pause_playback` preserves the loading flag. -/
lemma pause_playback_loading (net : Network) (env : Env) (app : App) :
    ∀ a tr, net.pause_playback env app = .ok (a, tr) →
      a.is_loading = app.is_loading := by
  intro a tr h
  rcases get_current_playback_shape net env app with ⟨a1, tr1, hg, hs⟩
  have h1 : a1.is_loading = app.is_loading := by rw [hs]
  cases hc : env.pausePlayback net.client_config.device_id with
  | ok u =>
      simp [Network.pause_playback, hc, hg] at h
      rcases h with ⟨rfl, rfl⟩
      exact h1
  | error e =>
      simp [Network.pause_playback, hc] at h
      rcases h with ⟨rfl, rfl⟩
      rfl

/-- `shuffle` preserves the loading flag. -/
lemma shuffle_loading (net : Network) (env : Env) (app : App) (b : Bool) :
    ∀ a tr, net.shuffle env app b = .ok (a, tr) →
      a.is_loading = app.is_loading := by
  intro a tr h
  cases hc : env.shuffle (!b) net.client_config.device_id with
  | ok u =>
      cases hctx : app.current_playback_context with
      | some cpc =>
          simp [Network.shuffle, hc, hctx] at h
          rcases h with ⟨rfl, rfl⟩
          rfl
      | none =>
          simp [Network.shuffle, hc, hctx] at h
          rcases h with ⟨rfl, rfl⟩
          rfl
  | error e =>
      simp [Network.shuffle, hc] at h
      rcases h with ⟨rfl, rfl⟩
      rfl

/-- `repeat_playback` preserves the loading flag. -/
lemma repeat_playback_loading (net : Network) (env : Env) (app : App)
    (s : RepeatState) :
    ∀ a tr, net.repeat_playback env app s = .ok (a, tr) →
      a.is_loading = app.is_loading := by
  intro a tr h
  cases hc : env.repeatCall (next_repeat_state s) net.client_config.device_id with
  | ok u =>
      cases hctx : app.current_playback_context with
      | some cpc =>
          simp [Network.repeat_playback, hc, hctx] at h
          rcases h with ⟨rfl, rfl⟩
          rfl
      | none =>
          simp [Network.repeat_playback, hc, hctx] at h
          rcases h with ⟨rfl, rfl⟩
          rfl
  | error e =>
      simp [Network.repeat_playback, hc] at h
      rcases h with ⟨rfl, rfl⟩
      rfl

/-- `change_volume` preserves the loading flag. -/
lemma change_volume_loading (net : Network) (env : Env) (app : App) (v : Nat) :
    ∀ a tr, net.change_volume env app v = .ok (a, tr) →
      a.is_loading = app.is_loading := by
  intro a tr h
  cases hc : env.volume v net.client_config.device_id with
  | ok u =>
      cases hctx : app.current_playback_context with
      | some cpc =>
          simp [Network.change_volume, hc, hctx] at h
          rcases h with ⟨rfl, rfl⟩
          rfl
      | none =>
          simp [Network.change_volume, hc, hctx] at h
          rcases h with ⟨rfl, rfl⟩
          rfl
  | error e =>
      simp [Network.change_volume, hc] at h
      rcases h with ⟨rfl, rfl⟩
      rfl

/-- `get_artist` preserves the loading flag. -/
lemma get_artist_loading (net : Network) (env : Env) (app : App)
    (aid nm : String) (country : Option String) :
    ∀ a tr, net.get_artist env app aid nm country = .ok (a, tr) →
      a.is_loading = app.is_loading := by
  intro a tr h
  cases hj : try_join3 (env.artistAlbums aid country net.large_search_limit)
      (env.artistTopTracks aid country) (env.artistRelatedArtists aid) with
  | ok triple =>
      obtain ⟨al, tt, ra⟩ := triple
      simp [Network.get_artist, hj] at h
      rcases h with ⟨rfl, rfl⟩
      rfl
  | error e =>
      simp [Network.get_artist, hj] at h
      rcases h with ⟨rfl, rfl⟩
      rfl

/-- `get_album_tracks` preserves the loading flag. -/
lemma get_album_tracks_loading (net : Network) (env : Env) (app : App)
    (album : SimplifiedAlbum) :
    ∀ a tr, net.get_album_tracks env app album = .ok (a, tr) →
      a.is_loading = app.is_loading := by
  intro a tr h
  cases hid : album.id with
  | none =>
      simp [Network.get_album_tracks, hid] at h
      rcases h with ⟨rfl, rfl⟩
      rfl
  | some aid =>
      cases henv : env.albumTrack aid net.large_search_limit with
      | ok tracks =>
          rcases contains_shape net env app
            (tracks.items.filterMap (fun item => item.id)) with ⟨a1, hc, hs⟩
          have h1 : a1.is_loading = app.is_loading := by rw [hs]
          simp [Network.get_album_tracks, hid, henv, hc] at h
          rcases h with ⟨rfl, rfl⟩
          simpa using h1
      | error e =>
          simp [Network.get_album_tracks, hid, henv] at h
          rcases h with ⟨rfl, rfl⟩
          rfl

/-- `toggle_save_track` preserves the loading flag. -/
lemma toggle_save_track_loading (net : Network) (env : Env) (app : App)
    (tid : String) :
    ∀ a tr, net.toggle_save_track env app tid = .ok (a, tr) →
      a.is_loading = app.is_loading := by
  intro a tr h
  cases hc : env.savedTracksContains [tid] with
  | ok saved =>
      by_cases hsv : saved.head? = some true
      · cases hd : env.savedTracksDelete [tid] with
        | ok u =>
            simp [Network.toggle_save_track, hc, hsv, hd] at h
            rcases h with ⟨rfl, rfl⟩
            rfl
        | error e =>
            simp [Network.toggle_save_track, hc, hsv, hd] at h
            rcases h with ⟨rfl, rfl⟩
            rfl
      · cases hd : env.savedTracksAdd [tid] with
        | ok u =>
            simp [Network.toggle_save_track, hc, hsv, hd] at h
            rcases h with ⟨rfl, rfl⟩
            rfl
        | error e =>
            simp [Network.toggle_save_track, hc, hsv, hd] at h
            rcases h with ⟨rfl, rfl⟩
            rfl
  | error e =>
      simp [Network.toggle_save_track, hc] at h
      rcases h with ⟨rfl, rfl⟩
      rfl

/-- `get_followed_artists` preserves the loading flag. -/
lemma get_followed_artists_loading (net : Network) (env : Env) (app : App)
    (after : Option String) :
    ∀ a tr, net.get_followed_artists env app after = .ok (a, tr) →
      a.is_loading = app.is_loading := by
  intro a tr h
  cases hc : env.currentUserFollowedArtists net.large_search_limit after with
  | ok sa =>
      simp [Network.get_followed_artists, hc] at h
      rcases h with ⟨rfl, rfl⟩
      rfl
  | error e =>
      simp [Network.get_followed_artists, hc] at h
      rcases h with ⟨rfl, rfl⟩
      rfl

/-- `get_current_user_saved_albums` preserves the loading flag. -/
lemma get_saved_albums_loading (net : Network) (env : Env) (app : App)
    (offset : Option Nat) :
    ∀ a tr, net.get_current_user_saved_albums env app offset = .ok (a, tr) →
      a.is_loading = app.is_loading := by
  intro a tr h
  cases hc : env.currentUserSavedAlbums net.large_search_limit offset with
  | ok page =>
      by_cases hp : page.items = []
      · simp [Network.get_current_user_saved_albums, hc, hp] at h
        rcases h with ⟨rfl, rfl⟩
        rfl
      · simp [Network.get_current_user_saved_albums, hc, hp] at h
        rcases h with ⟨rfl, rfl⟩
        rfl
  | error e =>
      simp [Network.get_current_user_saved_albums, hc] at h
      rcases h with ⟨rfl, rfl⟩
      rfl

/-- `current_user_saved_album_delete` preserves the loading flag. -/
lemma saved_album_delete_loading (net : Network) (env : Env) (app : App)
    (aid : String) :
    ∀ a tr, net.current_user_saved_album_delete env app aid = .ok (a, tr) →
      a.is_loading = app.is_loading := by
  intro a tr h
  cases hc : env.savedAlbumsDelete [aid] with
  | ok u =>
      cases hsub : net.get_current_user_saved_albums env app none with
      | ok pr =>
          obtain ⟨a1, tr1⟩ := pr
          have h1 := get_saved_albums_loading net env app none a1 tr1 hsub
          simp [Network.current_user_saved_album_delete, hc, hsub] at h
          rcases h with ⟨rfl, rfl⟩
          exact h1
      | error e =>
          simp [Network.current_user_saved_album_delete, hc, hsub] at h
  | error e =>
      simp [Network.current_user_saved_album_delete, hc] at h
      rcases h with ⟨rfl, rfl⟩
      rfl

/-- `current_user_saved_album_add` preserves the loading flag. -/
lemma saved_album_add_loading (net : Network) (env : Env) (app : App)
    (aid : String) :
    ∀ a tr, net.current_user_saved_album_add env app aid = .ok (a, tr) →
      a.is_loading = app.is_loading := by
  intro a tr h
  cases hc : env.savedAlbumsAdd [aid] with
  | ok u =>
      simp [Network.current_user_saved_album_add, hc] at h
      rcases h with ⟨rfl, rfl⟩
      rfl
  | error e =>
      simp [Network.current_user_saved_album_add, hc] at h
      rcases h with ⟨rfl, rfl⟩
      rfl

/-- `user_unfollow_artists` preserves the loading flag. -/
lemma user_unfollow_artists_loading (net : Network) (env : Env) (app : App)
    (ids : List String) :
    ∀ a tr, net.user_unfollow_artists env app ids = .ok (a, tr) →
      a.is_loading = app.is_loading := by
  intro a tr h
  cases hc : env.userUnfollowArtists ids with
  | ok u =>
      cases hsub : net.get_followed_artists env app none with
      | ok pr =>
          obtain ⟨a1, tr1⟩ := pr
          have h1 := get_followed_artists_loading net env app none a1 tr1 hsub
          simp [Network.user_unfollow_artists, hc, hsub] at h
          rcases h with ⟨rfl, rfl⟩
          exact h1
      | error e =>
          simp [Network.user_unfollow_artists, hc, hsub] at h
  | error e =>
      simp [Network.user_unfollow_artists, hc] at h
      rcases h with ⟨rfl, rfl⟩
      rfl

/-- `user_follow_artists` preserves the loading flag. -/
lemma user_follow_artists_loading (net : Network) (env : Env) (app : App)
    (ids : List String) :
    ∀ a tr, net.user_follow_artists env app ids = .ok (a, tr) →
      a.is_loading = app.is_loading := by
  intro a tr h
  cases hc : env.userFollowArtists ids with
  | ok u =>
      cases hsub : net.get_followed_artists env app none with
      | ok pr =>
          obtain ⟨a1, tr1⟩ := pr
          have h1 := get_followed_artists_loading net env app none a1 tr1 hsub
          simp [Network.user_follow_artists, hc, hsub] at h
          rcases h with ⟨rfl, rfl⟩
          exact h1
      | error e =>
          simp [Network.user_follow_artists, hc, hsub] at h
  | error e =>
      simp [Network.user_follow_artists, hc] at h
      rcases h with ⟨rfl, rfl⟩
      rfl

/-- `user_follow_playlist` preserves the loading flag. -/
lemma user_follow_playlist_loading (net : Network) (env : Env) (app : App)
    (oid pid : String) (pub : Option Bool) :
    ∀ a tr, net.user_follow_playlist env app oid pid pub = .ok (a, tr) →
      a.is_loading = app.is_loading := by
  intro a tr h
  cases hc : env.followPlaylist oid pid pub with
  | ok u =>
      cases hsub : net.get_current_user_playlists env app with
      | ok pr =>
          obtain ⟨a1, tr1⟩ := pr
          have h1 := get_current_user_playlists_loading net env app a1 tr1 hsub
          simp [Network.user_follow_playlist, hc, hsub] at h
          rcases h with ⟨rfl, rfl⟩
          exact h1
      | error e =>
          simp [Network.user_follow_playlist, hc, hsub] at h
  | error e =>
      simp [Network.user_follow_playlist, hc] at h
      rcases h with ⟨rfl, rfl⟩
      rfl

/-- `user_unfollow_playlist` preserves the loading flag. -/
lemma user_unfollow_playlist_loading (net : Network) (env : Env) (app : App)
    (uid pid : String) :
    ∀ a tr, net.user_unfollow_playlist env app uid pid = .ok (a, tr) →
      a.is_loading = app.is_loading := by
  intro a tr h
  cases hc : env.unfollowPlaylist uid pid with
  | ok u =>
      cases hsub : net.get_current_user_playlists env app with
      | ok pr =>
          obtain ⟨a1, tr1⟩ := pr
          have h1 := get_current_user_playlists_loading net env app a1 tr1 hsub
          simp [Network.user_unfollow_playlist, hc, hsub] at h
          rcases h with ⟨rfl, rfl⟩
          exact h1
      | error e =>
          simp [Network.user_unfollow_playlist, hc, hsub] at h
  | error e =>
      simp [Network.user_unfollow_playlist, hc] at h
      rcases h with ⟨rfl, rfl⟩
      rfl

/-- `made_for_you_search_and_add` preserves the loading flag. -/
lemma made_for_you_add_loading (net : Network) (env : Env) (app : App)
    (term : String) (country : Option String) :
    ∀ a tr, net.made_for_you_search_and_add env app term country = .ok (a, tr) →
      a.is_loading = app.is_loading := by
  intro a tr h
  cases hc : env.searchPlaylist term net.large_search_limit country with
  | ok sp =>
      by_cases hp : app.library.made_for_you_playlists.pages = []
      · simp [Network.made_for_you_search_and_add, hc, hp] at h
        rcases h with ⟨rfl, rfl⟩
        rfl
      · cases hg : app.library.made_for_you_playlists.get_results with
        | some page =>
            simp [Network.made_for_you_search_and_add, hc, hp, hg] at h
            rcases h with ⟨rfl, rfl⟩
            rfl
        | none =>
            simp [Network.made_for_you_search_and_add, hc, hp, hg] at h
  | error e =>
      simp [Network.made_for_you_search_and_add, hc] at h
      rcases h with ⟨rfl, rfl⟩
      rfl

/-- `get_audio_analysis` preserves the loading flag. -/
lemma get_audio_analysis_loading (net : Network) (env : Env) (app : App)
    (uri : String) :
    ∀ a tr, net.get_audio_analysis env app uri = .ok (a, tr) →
      a.is_loading = app.is_loading := by
  intro a tr h
  cases hc : env.audioAnalysis uri with
  | ok u =>
      simp [Network.get_audio_analysis, hc] at h
      rcases h with ⟨rfl, rfl⟩
      simp
  | error e =>
      simp [Network.get_audio_analysis, hc] at h
      rcases h with ⟨rfl, rfl⟩
      rfl

/-- `get_recently_played` preserves the loading flag. -/
lemma get_recently_played_loading (net : Network) (env : Env) (app : App) :
    ∀ a tr, net.get_recently_played env app = .ok (a, tr) →
      a.is_loading = app.is_loading := by
  intro a tr h
  cases hc : env.recentlyPlayed net.large_search_limit with
  | ok result =>
      rcases contains_shape net env app
        (result.items.filterMap (fun item => item.track.id)) with ⟨a1, hcc, hs⟩
      have h1 : a1.is_loading = app.is_loading := by rw [hs]
      simp [Network.get_recently_played, hc, hcc] at h
      rcases h with ⟨rfl, rfl⟩
      simpa using h1
  | error e =>
      simp [Network.get_recently_played, hc] at h
      rcases h with ⟨rfl, rfl⟩
      rfl

/-- `get_album` preserves the loading flag. -/
lemma get_album_loading (net : Network) (env : Env) (app : App)
    (aid : String) :
    ∀ a tr, net.get_album env app aid = .ok (a, tr) →
      a.is_loading = app.is_loading := by
  intro a tr h
  cases hc : env.album aid with
  | ok album =>
      simp [Network.get_album, hc] at h
      rcases h with ⟨rfl, rfl⟩
      simp
  | error e =>
      simp [Network.get_album, hc] at h
      rcases h with ⟨rfl, rfl⟩
      rfl

/-- `set_device_id_in_config` preserves the loading flag. -/
lemma set_device_id_loading (net : Network) (env : Env) (app : App)
    (did : String) :
    ∀ n a tr, net.set_device_id_in_config env app did = .ok (n, a, tr) →
      a.is_loading = app.is_loading := by
  intro n a tr h
  cases hc : env.setDeviceId did with
  | ok u =>
      simp [Network.set_device_id_in_config, hc] at h
      rcases h with ⟨rfl, rfl, rfl⟩
      rfl
  | error e =>
      simp [Network.set_device_id_in_config, hc] at h
      rcases h with ⟨rfl, rfl, rfl⟩
      rfl

/-- `get_recommendations_for_seed` preserves the loading flag. -/
lemma get_recs_seed_loading (net : Network) (env : Env) (app : App)
    (sa st : Option (List String)) (ft : Option FullTrack)
    (country : Option String) :
    ∀ a tr, net.get_recommendations_for_seed env app sa st ft country =
        .ok (a, tr) → a.is_loading = app.is_loading := by
  intro a tr h
  cases hc : env.recommendations sa st net.large_search_limit country with
  | error e =>
      simp [Network.get_recommendations_for_seed, hc] at h
      rcases h with ⟨rfl, rfl⟩
      rfl
  | ok result =>
      cases hx : (net.extract_recommended_tracks env result).1 with
      | none =>
          simp [Network.get_recommendations_for_seed, hc, hx] at h
          rcases h with ⟨rfl, rfl⟩
          rfl
      | some rt =>
          cases ft with
          | none =>
              cases hs1 : net.set_tracks_to_table env app rt with
              | error e1 =>
                  simp [Network.get_recommendations_for_seed, hc, hx, hs1] at h
              | ok pr1 =>
                  obtain ⟨a1, tr1⟩ := pr1
                  have h1 := set_tracks_to_table_loading net env app rt a1 tr1 hs1
                  cases hs2 : net.start_playback env a1 none
                      (some (rt.map fun x => x.uri)) (some 0) with
                  | error e2 =>
                      simp [Network.get_recommendations_for_seed, hc, hx,
                        hs1, hs2] at h
                  | ok pr2 =>
                      obtain ⟨a2, tr2⟩ := pr2
                      have h2 := start_playback_loading net env a1 none
                        (some (rt.map fun x => x.uri)) (some 0) a2 tr2 hs2
                      simp [Network.get_recommendations_for_seed, hc, hx,
                        hs1, hs2] at h
                      split at h
                      · rcases h with ⟨rfl, rfl⟩
                        simpa using h2.trans h1
                      · rcases h with ⟨rfl, rfl⟩
                        simpa using h2.trans h1
          | some t0 =>
              cases hs1 : net.set_tracks_to_table env app (t0 :: rt) with
              | error e1 =>
                  simp [Network.get_recommendations_for_seed, hc, hx, hs1] at h
              | ok pr1 =>
                  obtain ⟨a1, tr1⟩ := pr1
                  have h1 := set_tracks_to_table_loading net env app (t0 :: rt)
                    a1 tr1 hs1
                  cases hs2 : net.start_playback env a1 none
                      (some (t0.uri :: rt.map fun x => x.uri)) (some 0) with
                  | error e2 =>
                      simp [Network.get_recommendations_for_seed, hc, hx,
                        hs1, hs2] at h
                  | ok pr2 =>
                      obtain ⟨a2, tr2⟩ := pr2
                      have h2 := start_playback_loading net env a1 none
                        (some (t0.uri :: rt.map fun x => x.uri)) (some 0) a2 tr2 hs2
                      simp [Network.get_recommendations_for_seed, hc, hx,
                        hs1, hs2] at h
                      split at h
                      · rcases h with ⟨rfl, rfl⟩
                        simpa using h2.trans h1
                      · rcases h with ⟨rfl, rfl⟩
                        simpa using h2.trans h1

/-- `get_recommendations_for_track_id` preserves the loading flag. -/
lemma get_recs_track_id_loading (net : Network) (env : Env) (app : App)
    (tid : String) (country : Option String) :
    ∀ a tr, net.get_recommendations_for_track_id env app tid country =
        .ok (a, tr) → a.is_loading = app.is_loading := by
  intro a tr h
  cases hc : env.track tid with
  | error e =>
      simp [Network.get_recommendations_for_track_id, hc] at h
      rcases h with ⟨rfl, rfl⟩
      rfl
  | ok t =>
      cases hid : t.id with
      | none =>
          cases hsub : net.get_recommendations_for_seed env app none none
              (some t) country with
          | ok pr =>
              obtain ⟨a1, tr1⟩ := pr
              have h1 := get_recs_seed_loading net env app none none (some t)
                country a1 tr1 hsub
              simp [Network.get_recommendations_for_track_id, hc, hid, hsub] at h
              rcases h with ⟨rfl, rfl⟩
              exact h1
          | error e =>
              simp [Network.get_recommendations_for_track_id, hc, hid, hsub] at h
      | some i =>
          cases hsub : net.get_recommendations_for_seed env app none
              (some [i]) (some t) country with
          | ok pr =>
              obtain ⟨a1, tr1⟩ := pr
              have h1 := get_recs_seed_loading net env app none (some [i])
                (some t) country a1 tr1 hsub
              simp [Network.get_recommendations_for_track_id, hc, hid, hsub] at h
              rcases h with ⟨rfl, rfl⟩
              exact h1
          | error e =>
              simp [Network.get_recommendations_for_track_id, hc, hid, hsub] at h

/-- Unwrapping of the dispatcher's per-arm wrapping of a handler result. -/
lemma map_pair_ok {X : HRes} {net n : Network} {a : App} {tr : List RC}
    (h : X.map (fun r => (net, r)) = .ok (n, a, tr)) :
    X = .ok (a, tr) ∧ n = net := by
  cases hx : X with
  | ok pr =>
      obtain ⟨a1, tr1⟩ := pr
      rw [hx] at h
      simp [Except.map] at h
      rcases h with ⟨rfl, rfl, rfl⟩
      exact ⟨rfl, rfl⟩
  | error e =>
      rw [hx] at h
      simp [Except.map] at h

/-- No arm of the dispatch body writes the loading flag: whatever an ok
handler run produces carries the incoming flag unchanged. -/
lemma dispatch_body_loading (net : Network) (env : Env) (app : App)
    (ev : IoEvent) :
    ∀ n a tr, net.dispatch_body env app ev = .ok (n, a, tr) →
      a.is_loading = app.is_loading := by
  intro n a tr h
  cases ev with
  | RefreshAuthentication =>
      cases hg : env.getToken with
      | some ti =>
          simp [Network.dispatch_body, hg] at h
          rcases h with ⟨rfl, rfl, rfl⟩
          rfl
      | none =>
          simp [Network.dispatch_body, hg] at h
          rcases h with ⟨rfl, rfl, rfl⟩
          rfl
  | UpdateSearchLimits l s =>
      simp [Network.dispatch_body] at h
      rcases h with ⟨rfl, rfl, rfl⟩
      rfl
  | SetDeviceIdInConfig d =>
      simp only [Network.dispatch_body] at h
      exact set_device_id_loading net env app d n a tr h
  | GetPlaylists =>
      simp only [Network.dispatch_body] at h
      exact get_current_user_playlists_loading net env app a tr (map_pair_ok h).1
  | GetUser =>
      simp only [Network.dispatch_body] at h
      exact get_user_loading net env app a tr (map_pair_ok h).1
  | GetDevices =>
      simp only [Network.dispatch_body] at h
      exact get_devices_loading net env app a tr (map_pair_ok h).1
  | GetCurrentPlayback =>
      simp only [Network.dispatch_body] at h
      exact get_current_playback_loading net env app a tr (map_pair_ok h).1
  | SetTracksToTable ts =>
      simp only [Network.dispatch_body] at h
      exact set_tracks_to_table_loading net env app ts a tr (map_pair_ok h).1
  | GetSearchResults term country =>
      simp only [Network.dispatch_body] at h
      exact get_search_results_loading net env app term country a tr
        (map_pair_ok h).1
  | GetMadeForYouPlaylistTracks pid off =>
      simp only [Network.dispatch_body] at h
      exact get_made_for_you_loading net env app pid off a tr (map_pair_ok h).1
  | GetPlaylistTracks pid off =>
      simp only [Network.dispatch_body] at h
      exact get_playlist_tracks_loading net env app pid off a tr (map_pair_ok h).1
  | GetCurrentSavedTracks off nav =>
      simp only [Network.dispatch_body] at h
      exact get_saved_tracks_loading net env app off nav a tr (map_pair_ok h).1
  | StartPlayback c us o =>
      simp only [Network.dispatch_body] at h
      exact start_playback_loading net env app c us o a tr (map_pair_ok h).1
  | Seek pos =>
      simp only [Network.dispatch_body] at h
      exact seek_loading net env app pos a tr (map_pair_ok h).1
  | NextTrack =>
      simp only [Network.dispatch_body] at h
      exact next_track_loading net env app a tr (map_pair_ok h).1
  | PreviousTrack =>
      simp only [Network.dispatch_body] at h
      exact previous_track_loading net env app a tr (map_pair_ok h).1
  | Shuffle b =>
      simp only [Network.dispatch_body] at h
      exact shuffle_loading net env app b a tr (map_pair_ok h).1
  | Repeat s =>
      simp only [Network.dispatch_body] at h
      exact repeat_playback_loading net env app s a tr (map_pair_ok h).1
  | PausePlayback =>
      simp only [Network.dispatch_body] at h
      exact pause_playback_loading net env app a tr (map_pair_ok h).1
  | ChangeVolume v =>
      simp only [Network.dispatch_body] at h
      exact change_volume_loading net env app v a tr (map_pair_ok h).1
  | GetArtist aid nm country =>
      simp only [Network.dispatch_body] at h
      exact get_artist_loading net env app aid nm country a tr (map_pair_ok h).1
  | GetAlbumTracks album =>
      simp only [Network.dispatch_body] at h
      exact get_album_tracks_loading net env app album a tr (map_pair_ok h).1
  | GetRecommendationsForSeed sa st ft country =>
      simp only [Network.dispatch_body] at h
      exact get_recs_seed_loading net env app sa st ft country a tr
        (map_pair_ok h).1
  | GetCurrentUserSavedAlbums off =>
      simp only [Network.dispatch_body] at h
      exact get_saved_albums_loading net env app off a tr (map_pair_ok h).1
  | CurrentUserSavedAlbumDelete aid =>
      simp only [Network.dispatch_body] at h
      exact saved_album_delete_loading net env app aid a tr (map_pair_ok h).1
  | CurrentUserSavedAlbumAdd aid =>
      simp only [Network.dispatch_body] at h
      exact saved_album_add_loading net env app aid a tr (map_pair_ok h).1
  | UserUnfollowArtists ids =>
      simp only [Network.dispatch_body] at h
      exact user_unfollow_artists_loading net env app ids a tr (map_pair_ok h).1
  | UserFollowArtists ids =>
      simp only [Network.dispatch_body] at h
      exact user_follow_artists_loading net env app ids a tr (map_pair_ok h).1
  | UserFollowPlaylist oid pid pub =>
      simp only [Network.dispatch_body] at h
      exact user_follow_playlist_loading net env app oid pid pub a tr
        (map_pair_ok h).1
  | UserUnfollowPlaylist uid pid =>
      simp only [Network.dispatch_body] at h
      exact user_unfollow_playlist_loading net env app uid pid a tr
        (map_pair_ok h).1
  | MadeForYouSearchAndAdd term country =>
      simp only [Network.dispatch_body] at h
      exact made_for_you_add_loading net env app term country a tr
        (map_pair_ok h).1
  | GetAudioAnalysis uri =>
      simp only [Network.dispatch_body] at h
      exact get_audio_analysis_loading net env app uri a tr (map_pair_ok h).1
  | ToggleSaveTrack tid =>
      simp only [Network.dispatch_body] at h
      exact toggle_save_track_loading net env app tid a tr (map_pair_ok h).1
  | GetRecommendationsForTrackId tid country =>
      simp only [Network.dispatch_body] at h
      exact get_recs_track_id_loading net env app tid country a tr
        (map_pair_ok h).1
  | GetRecentlyPlayed =>
      simp only [Network.dispatch_body] at h
      exact get_recently_played_loading net env app a tr (map_pair_ok h).1
  | GetFollowedArtists after =>
      simp only [Network.dispatch_body] at h
      exact get_followed_artists_loading net env app after a tr (map_pair_ok h).1
  | GetAlbum aid =>
      simp only [Network.dispatch_body] at h
      exact get_album_loading net env app aid a tr (map_pair_ok h).1

/-- C1: for every dispatched command whose handler body completes, the
dispatcher clears the loading flag exactly once at the end — the final state
always has the flag false, and the handler body itself never changes the
flag, so the single final clear is the only write. -/
theorem C1_loading_always_cleared (net : Network) (env : Env) (app : App)
    (ev : IoEvent) :
    (∀ x, net.handle_network_event env app ev = .ok x →
      x.2.1.is_loading = false) ∧
    (∀ y, net.dispatch_body env app ev = .ok y →
      y.2.1.is_loading = app.is_loading) := by
  constructor
  · intro x h
    unfold Network.handle_network_event at h
    cases hb : net.dispatch_body env app ev with
    | ok y =>
        obtain ⟨n, a, tr⟩ := y
        rw [hb] at h
        simp [Except.map] at h
        rcases h with ⟨rfl, rfl, rfl⟩
        rfl
    | error e =>
        rw [hb] at h
        simp [Except.map] at h
  · intro y h
    obtain ⟨n, a, tr⟩ := y
    exact dispatch_body_loading net env app ev n a tr h

/-- C1 witness: dispatching GetUser against the failing environment clears
the flag, while the handler body alone had left it at its incoming value. -/
theorem C1_loading_always_cleared_witness :
    (net0.handle_network_event env0 app0 IoEvent.GetUser =
      .ok (net0, { app0 with errors := ["offline"], is_loading := false },
           [RC.currentUser])) ∧
    ({ app0 with errors := ["offline"], is_loading := false } : App).is_loading
      = false ∧
    (net0.dispatch_body env0 app0 IoEvent.GetUser =
      .ok (net0, { app0 with errors := ["offline"] }, [RC.currentUser])) ∧
    ({ app0 with errors := ["offline"] } : App).is_loading = app0.is_loading :=
  ⟨rfl,
   (C1_loading_always_cleared net0 env0 app0 IoEvent.GetUser).1
     (net0, { app0 with errors := ["offline"], is_loading := false },
      [RC.currentUser]) rfl,
   rfl,
   (C1_loading_always_cleared net0 env0 app0 IoEvent.GetUser).2
     (net0, { app0 with errors := ["offline"] }, [RC.currentUser]) rfl⟩
